import Mathlib

set_option maxRecDepth 4000

namespace EstadoPedidos

/-- JSON-like Python values, as produced by `json.loads` and stored in the
tables.  Integer literals are `num`; fractional or exponent numerals and
NaN/Infinity become Python floats, modelled by `fnum` carrying whether
the float equals 0.0 (that is all Python truthiness needs) together
with its source numeral text (used when the value is interpolated into
a message; exact for plain decimal forms). -/
inductive Json where
  | null : Json
  | bool : Bool → Json
  | num  : Int → Json
  | fnum : Bool → String → Json
  | str  : String → Json
  | arr  : List Json → Json
  | obj  : List (String × Json) → Json
mutual

/-- Structural equality test on JSON values. -/
def Json.beq : Json → Json → Bool
  | .null, .null => true
  | .bool a, .bool b => a == b
  | .num a, .num b => a == b
  | .fnum a la, .fnum b lb => a == b && la == lb
  | .str a, .str b => a == b
  | .arr a, .arr b => Json.beqL a b
  | .obj a, .obj b => Json.beqKV a b
  | _, _ => false

def Json.beqL : List Json → List Json → Bool
  | [], [] => true
  | x :: xs, y :: ys => Json.beq x y && Json.beqL xs ys
  | _, _ => false

def Json.beqKV : List (String × Json) → List (String × Json) → Bool
  | [], [] => true
  | (k, x) :: xs, (l, y) :: ys => k == l && Json.beq x y && Json.beqKV xs ys
  | _, _ => false

end

mutual

theorem Json.eq_of_beq : ∀ {a b : Json}, Json.beq a b = true → a = b
  | .null, .null, _ => rfl
  | .bool a, .bool b, h => by simpa [Json.beq] using h
  | .num a, .num b, h => by simpa [Json.beq] using h
  | .fnum a la, .fnum b lb, h => by
    simp only [Json.beq, Bool.and_eq_true, beq_iff_eq] at h
    rw [h.1, h.2]
  | .str a, .str b, h => by simpa [Json.beq] using h
  | .arr a, .arr b, h =>
    congrArg Json.arr (Json.eqL_of_beqL (by simpa [Json.beq] using h))
  | .obj a, .obj b, h =>
    congrArg Json.obj (Json.eqKV_of_beqKV (by simpa [Json.beq] using h))

theorem Json.eqL_of_beqL : ∀ {a b : List Json}, Json.beqL a b = true → a = b
  | [], [], _ => rfl
  | x :: xs, y :: ys, h => by
    have h' := h
    simp only [Json.beqL, Bool.and_eq_true] at h'
    rw [Json.eq_of_beq h'.1, Json.eqL_of_beqL h'.2]

theorem Json.eqKV_of_beqKV :
    ∀ {a b : List (String × Json)}, Json.beqKV a b = true → a = b
  | [], [], _ => rfl
  | (k, x) :: xs, (l, y) :: ys, h => by
    have h' := h
    simp only [Json.beqKV, Bool.and_eq_true, beq_iff_eq] at h'
    rw [h'.1.1, Json.eq_of_beq h'.1.2, Json.eqKV_of_beqKV h'.2]

end

mutual

theorem Json.beq_refl : ∀ a : Json, Json.beq a a = true
  | .null => rfl
  | .bool a => by simp [Json.beq]
  | .num a => by simp [Json.beq]
  | .fnum a la => by simp [Json.beq]
  | .str a => by simp [Json.beq]
  | .arr a => by simpa [Json.beq] using Json.beqL_refl a
  | .obj a => by simpa [Json.beq] using Json.beqKV_refl a

theorem Json.beqL_refl : ∀ a : List Json, Json.beqL a a = true
  | [] => rfl
  | x :: xs => by simp [Json.beqL, Json.beq_refl x, Json.beqL_refl xs]

theorem Json.beqKV_refl : ∀ a : List (String × Json), Json.beqKV a a = true
  | [] => rfl
  | (k, x) :: xs => by simp [Json.beqKV, Json.beq_refl x, Json.beqKV_refl xs]

end

instance : DecidableEq Json := fun a b =>
  if h : Json.beq a b = true then .isTrue (Json.eq_of_beq h)
  else .isFalse (fun he => h (he ▸ Json.beq_refl a))

/-- Python truthiness (`bool(x)`) on the modelled values. -/
def Json.truthy : Json → Bool
  | .null => false
  | .bool b => b
  | .num n => n != 0
  | .fnum esCero _ => !esCero
  | .str s => s ≠ ""
  | .arr xs => !xs.isEmpty
  | .obj kvs => !kvs.isEmpty

/-- A Python dict of JSON values, as an association list whose first
occurrence of a key wins (handler-built dicts have distinct keys). -/
abbrev Dict := List (String × Json)

/-- First-occurrence lookup in a dict (`d[k]` / `k in d`). -/
def lookupKV : Dict → String → Option Json
  | [], _ => none
  | (k', v) :: rest, k => if k' = k then some v else lookupKV rest k

/-- `d.get(k)`: lookup with Python `None` as the default. -/
def getJ (kvs : Dict) (k : String) : Json := (lookupKV kvs k).getD .null

/-- `d[k] = v`: replace the first binding of `k`, or append a new one. -/
def setKV : Dict → String → Json → Dict
  | [], k, v => [(k, v)]
  | (k', v') :: rest, k, v =>
    if k' = k then (k, v) :: rest else (k', v') :: setKV rest k v

/-- `d.pop(k, None)` effect used for `REMOVE`: drop every binding of `k`. -/
def removeKV : Dict → String → Dict
  | [], _ => []
  | (k', v') :: rest, k =>
    if k' = k then removeKV rest k else (k', v') :: removeKV rest k

/-- Exceptions the embedded Python fragments can raise. -/
inductive PyErr where
  | attributeError : PyErr
  | keyError : PyErr
  | typeError : PyErr
deriving DecidableEq

def isObj : Json → Bool
  | .obj _ => true
  | _ => false

def asObj : Json → Dict
  | .obj kvs => kvs
  | _ => []

-- ---------------------------------------------------------------- --
-- A model of `json.loads`: null/true/false, integer numerals, float
-- numerals (fraction/exponent forms and NaN/Infinity, yielding
-- `Json.fnum`), strings without \u escapes, arrays and objects
-- (duplicate keys: the last value wins, as in a Python dict).
-- `none` models a raised exception.
-- ---------------------------------------------------------------- --

def isWs (c : Char) : Bool := c = ' ' || c = Char.ofNat 9 || c = Char.ofNat 10 || c = Char.ofNat 13

def skipWs : List Char → List Char
  | [] => []
  | c :: cs => if isWs c then skipWs cs else c :: cs

def escChar (c : Char) : Option Char :=
  if c = Char.ofNat 34 then some (Char.ofNat 34)
  else if c = Char.ofNat 92 then some (Char.ofNat 92)
  else if c = Char.ofNat 47 then some (Char.ofNat 47)
  else if c = Char.ofNat 110 then some (Char.ofNat 10)
  else if c = Char.ofNat 116 then some (Char.ofNat 9)
  else if c = Char.ofNat 114 then some (Char.ofNat 13)
  else if c = Char.ofNat 98 then some (Char.ofNat 8)
  else if c = Char.ofNat 102 then some (Char.ofNat 12)
  else none

def parseStringLit : List Char → Option (String × List Char)
  | [] => none
  | c :: cs =>
    if c = Char.ofNat 34 then some ("", cs)
    else if c = Char.ofNat 92 then
      match cs with
      | [] => none
      | e :: cs' =>
        match escChar e with
        | none => none
        | some ch =>
          (parseStringLit cs').map (fun p => (String.singleton ch ++ p.1, p.2))
    else (parseStringLit cs).map (fun p => (String.singleton c ++ p.1, p.2))

def parseDigitsAcc (acc : Nat) : List Char → Nat × List Char
  | [] => (acc, [])
  | c :: cs =>
    if c.isDigit then parseDigitsAcc (acc * 10 + (c.toNat - 48)) cs
    else (acc, c :: cs)

def parseIntLit (cs : List Char) : Option (Int × List Char) :=
  match cs with
  | c :: rest =>
    if c = Char.ofNat 45 then
      match rest with
      | d :: _ =>
        if d.isDigit then
          let p := parseDigitsAcc 0 rest
          some (-(p.1 : Int), p.2)
        else none
      | [] => none
    else if c.isDigit then
      let p := parseDigitsAcc 0 cs
      some ((p.1 : Int), p.2)
    else none
  | [] => none

/-- An exponent part `[eE][+-]?digits`; returns the remaining input. -/
def parseExpPart : List Char → Option (List Char)
  | c :: cs =>
    if c = 'e' || c = 'E' then
      match cs with
      | s :: cs2 =>
        if s = '+' || s = Char.ofNat 45 then
          match cs2 with
          | d :: _ => if d.isDigit then some (parseDigitsAcc 0 cs2).2 else none
          | [] => none
        else if s.isDigit then some (parseDigitsAcc 0 cs).2
        else none
      | [] => none
    else none
  | [] => none

/-- A fraction and/or exponent after the integer part of a numeral.
Succeeds only when at least one of them is present (the numeral is a
Python float); returns whether the fraction digits are all zero. -/
def parseFracExp (cs : List Char) : Option (Bool × List Char) :=
  match cs with
  | c :: cs2 =>
    if c = '.' then
      match cs2 with
      | d :: _ =>
        if d.isDigit then
          let p := parseDigitsAcc 0 cs2
          match parseExpPart p.2 with
          | some r2 => some (p.1 == 0, r2)
          | none => some (p.1 == 0, p.2)
        else none
      | [] => none
    else
      match parseExpPart cs with
      | some r2 => some (true, r2)
      | none => none
  | [] => none

/-- Builds a Python dict from JSON object members by successive
assignment: on a duplicate key the last value wins, in place. -/
def objFromMembers (ms : List (String × Json)) : Dict :=
  ms.foldl (fun d p => setKV d p.1 p.2) []

mutual

def parseVal : Nat → List Char → Option (Json × List Char)
  | 0, _ => none
  | Nat.succ fuel, cs =>
    match skipWs cs with
    | 'n' :: 'u' :: 'l' :: 'l' :: rest => some (.null, rest)
    | 't' :: 'r' :: 'u' :: 'e' :: rest => some (.bool true, rest)
    | 'f' :: 'a' :: 'l' :: 's' :: 'e' :: rest => some (.bool false, rest)
    | 'N' :: 'a' :: 'N' :: rest => some (.fnum false "nan", rest)
    | 'I' :: 'n' :: 'f' :: 'i' :: 'n' :: 'i' :: 't' :: 'y' :: rest =>
      some (.fnum false "inf", rest)
    | '-' :: 'I' :: 'n' :: 'f' :: 'i' :: 'n' :: 'i' :: 't' :: 'y' :: rest =>
      some (.fnum false "-inf", rest)
    | c :: rest =>
      if c = Char.ofNat 34 then
        (parseStringLit rest).map (fun p => (Json.str p.1, p.2))
      else if c = '[' then
        match skipWs rest with
        | ']' :: r => some (.arr [], r)
        | other => (parseElems fuel other).map (fun p => (Json.arr p.1, p.2))
      else if c = '{' then
        match skipWs rest with
        | '}' :: r => some (.obj [], r)
        | other =>
          (parseMembers fuel other).map (fun p => (Json.obj (objFromMembers p.1), p.2))
      else
        match parseIntLit (c :: rest) with
        | some (n, r) =>
          match parseFracExp r with
          | some (fz, r2) =>
            some (.fnum (n == 0 && fz)
              (String.mk ((c :: rest).take ((c :: rest).length - r2.length))), r2)
          | none => some (.num n, r)
        | none => none
    | [] => none

def parseElems : Nat → List Char → Option (List Json × List Char)
  | 0, _ => none
  | Nat.succ fuel, cs => do
    let (v, r) ← parseVal fuel cs
    match skipWs r with
    | ',' :: r' => (parseElems fuel r').map (fun p => (v :: p.1, p.2))
    | ']' :: r' => some ([v], r')
    | _ => none

def parseMembers : Nat → List Char → Option (Dict × List Char)
  | 0, _ => none
  | Nat.succ fuel, cs =>
    match skipWs cs with
    | c :: rest =>
      if c = Char.ofNat 34 then do
        let (k, r1) ← parseStringLit rest
        match skipWs r1 with
        | ':' :: r2 => do
          let (v, r3) ← parseVal fuel r2
          match skipWs r3 with
          | ',' :: r4 => (parseMembers fuel r4).map (fun p => ((k, v) :: p.1, p.2))
          | '}' :: r4 => some ([(k, v)], r4)
          | _ => none
        | _ => none
      else none
    | [] => none

end

/-- Model of `json.loads`; `none` models a raised exception. -/
def json_loads (s : String) : Option Json :=
  match parseVal (s.length + 2) s.data with
  | some (v, r) => if (skipWs r).isEmpty then some v else none
  | none => none

-- ---------------------------------------------------------------- --
-- `parse_event`: the Request Normalizer.  The envelope is a dict;
-- the result can be any JSON value (the parsed body is returned
-- unchecked), and `.error` models an uncaught Python exception
-- (`body.setdefault` on a non-dict parsed body).
-- ---------------------------------------------------------------- --

/-- `body.setdefault(k, v)` folded over the path parameters. -/
def setdefaultAll : Dict → Dict → Dict
  | body, [] => body
  | body, (k, v) :: rest =>
    setdefaultAll (if (lookupKV body k).isSome then body else body ++ [(k, v)]) rest

def parse_event (event : Dict) : Except PyErr Json :=
  let tok := lookupKV event "taskToken"
  let inp := lookupKV event "input"
  if tok.isSome && inp.isSome && isObj (inp.getD .null) then
    .ok (.obj (setKV (asObj (inp.getD .null)) "taskToken" (tok.getD .null)))
  else
    match lookupKV event "body" with
    | some (Json.str bodyStr) =>
      let ppRaw := getJ event "pathParameters"
      let pp := if ppRaw.truthy then ppRaw else Json.obj []
      match json_loads bodyStr with
      | some (Json.obj kvs) =>
        match pp with
        | Json.obj ppkvs => .ok (.obj (setdefaultAll kvs ppkvs))
        | _ => .ok (.obj kvs)
      | some nonObj =>
        match pp with
        | Json.obj [] => .ok nonObj
        | Json.obj (_ :: _) => .error .attributeError
        | _ => .ok nonObj
      | none =>
        match pp with
        | Json.obj ppkvs => .ok (.obj (setdefaultAll [] ppkvs))
        | _ => .ok (.obj [])
    | _ => .ok (.obj event)

example :
    json_loads "\x7b\"tenant_id\":\"t1\",\"id_pedido\":\"o1\"\x7d" =
      some (.obj [("tenant_id", .str "t1"), ("id_pedido", .str "o1")]) := by
  decide

example : json_loads "5" = some (.num 5) := by decide

example : json_loads "[1, -2]" = some (.arr [.num 1, .num (-2)]) := by decide

example : json_loads "not json" = none := by decide

example : json_loads "5.0" = some (.fnum false "5.0") := by decide

example : json_loads "1e3" = some (.fnum false "1e3") := by decide

example : json_loads "-0.0e5" = some (.fnum true "-0.0e5") := by decide

example : json_loads "NaN" = some (.fnum false "nan") := by decide

example : json_loads "5." = none := by decide

example :
    json_loads "\x7b\"a\":1,\"a\":2\x7d" = some (.obj [("a", .num 2)]) := by decide

example :
    parse_event [("body", .str "5.0"), ("pathParameters", .obj [("x", .str "y")])] =
      .error .attributeError := rfl

-- ---------------------------------------------------------------- --
-- Python `str()` as used inside the handlers' f-strings.
-- String repr assumes the string holds no quote or backslash
-- characters (the values interpolated here are state names, steps
-- and field names).
-- ---------------------------------------------------------------- --

/-- A single-quote character as a string. -/
def sq : String := String.singleton (Char.ofNat 39)

mutual

/-- Python `str(x)`.  A float prints as its stored numeral text. -/
def pyStr : Json → String
  | .null => "None"
  | .bool b => if b then "True" else "False"
  | .num n => toString n
  | .fnum _ lit => lit
  | .str s => s
  | .arr xs => "[" ++ pyReprL xs ++ "]"
  | .obj kvs => "\x7b" ++ pyReprKV kvs ++ "\x7d"

/-- Python `repr(x)` (for elements of containers). -/
def pyRepr : Json → String
  | .null => "None"
  | .bool b => if b then "True" else "False"
  | .num n => toString n
  | .fnum _ lit => lit
  | .str s => sq ++ s ++ sq
  | .arr xs => "[" ++ pyReprL xs ++ "]"
  | .obj kvs => "\x7b" ++ pyReprKV kvs ++ "\x7d"

def pyReprL : List Json → String
  | [] => ""
  | [x] => pyRepr x
  | x :: y :: xs => pyRepr x ++ ", " ++ pyReprL (y :: xs)

def pyReprKV : List (String × Json) → String
  | [] => ""
  | [(k, v)] => sq ++ k ++ sq ++ ": " ++ pyRepr v
  | (k, v) :: p :: xs => sq ++ k ++ sq ++ ": " ++ pyRepr v ++ ", " ++ pyReprKV (p :: xs)

end

-- ---------------------------------------------------------------- --
-- World state: the four DynamoDB tables plus the record of
-- `send_task_success` calls made to Step Functions (the orchestrator
-- is a black box assumed to accept each signal).
-- ---------------------------------------------------------------- --

/-- An HTTP-style handler response; `body` is the dict passed to
`json.dumps`. -/
structure Resp where
  statusCode : Nat
  body : Dict
deriving DecidableEq

/-- Generic table: association list from a key to an item (a dict). -/
def lookupTab {κ : Type} [DecidableEq κ] : List (κ × Dict) → κ → Option Dict
  | [], _ => none
  | (k, it) :: rest, key => if k = key then some it else lookupTab rest key

/-- `put_item`: replace the item stored under `key`, or insert it. -/
def putTab {κ : Type} [DecidableEq κ] :
    List (κ × Dict) → κ → Dict → List (κ × Dict)
  | [], key, it => [(key, it)]
  | (k, v) :: rest, key, it =>
    if k = key then (key, it) :: rest else (k, v) :: putTab rest key it

def applySets : Dict → Dict → Dict
  | it, [] => it
  | it, (k, v) :: rest => applySets (setKV it k v) rest

def applyRemoves : Dict → List String → Dict
  | it, [] => it
  | it, k :: rest => applyRemoves (removeKV it k) rest

/-- `update_item` with `SET`s and `REMOVE`s: updates the stored item,
or (DynamoDB behaviour) creates one from the key attributes when no
item exists under `key`. -/
def updateTab {κ : Type} [DecidableEq κ] (tbl : List (κ × Dict)) (key : κ)
    (keyAttrs : Dict) (sets : Dict) (removes : List String) : List (κ × Dict) :=
  match lookupTab tbl key with
  | some it => putTab tbl key (applyRemoves (applySets it sets) removes)
  | none => putTab tbl key (applyRemoves (applySets keyAttrs sets) removes)

/-- The persistent world: tables PEDIDOS, COCINA, DESPACHADOR,
DELIVERY, and the list of `(TaskToken, output)` signals sent to Step
Functions. -/
structure Db where
  pedidos : List ((Json × Json) × Dict)
  cocina : List (Json × Dict)
  despachador : List (Json × Dict)
  delivery : List (Json × Dict)
  enviados : List (Json × Dict)
deriving DecidableEq

/-- `event.get(k)` on an arbitrary value: raises `AttributeError`
unless the value is a dict. -/
def pyGet (j : Json) (k : String) : Except PyErr Json :=
  match j with
  | .obj kvs => .ok (getJ kvs k)
  | _ => .error .attributeError

/-- `event.get("id_pedido") or event.get("id")`. -/
def pyGetIdPedido (j : Json) : Except PyErr Json :=
  match pyGet j "id_pedido" with
  | .error e => .error e
  | .ok a => if a.truthy then .ok a else pyGet j "id"

def obtener_pedido (db : Db) (tenant_id id_pedido : Json) : Option Dict :=
  lookupTab db.pedidos (tenant_id, id_pedido)

/-- The order id a normalized dict denotes:
`event.get("id_pedido") or event.get("id")`. -/
def resuelveId (m : Dict) : Json :=
  if (getJ m "id_pedido").truthy then getJ m "id_pedido" else getJ m "id"

def msg_faltan_ids : String := "Faltan tenant_id o id_pedido en el event"

def msg_estado_incorrecto (estado_actual : Json) (estado_esperado : String) : String :=
  "Estado actual del pedido es " ++ sq ++ pyStr estado_actual ++ sq ++
    ", pero esta Lambda espera " ++ sq ++ estado_esperado ++ sq

/-- 400 response for a missing tenant or order id. -/
def resp_faltan : Resp := ⟨400, [("mensaje", .str msg_faltan_ids)]⟩

/-- 404 response for an unknown order. -/
def resp_no_encontrado (tenant_id id_pedido : Json) : Resp :=
  ⟨404, [("mensaje", .str "Pedido no encontrado"),
    ("tenant_id", tenant_id), ("id_pedido", id_pedido)]⟩

/-- 400 response for the wrong current state. -/
def resp_estado_incorrecto (estado_actual : Json) (estado_esperado : String) : Resp :=
  ⟨400, [("mensaje", .str (msg_estado_incorrecto estado_actual estado_esperado))]⟩

/-- The Guard: returns the order (`.inl`) or the error response
(`.inr`); `.error` models a raised Python exception. -/
def validar_pedido_y_estado (db : Db) (event : Json) (estado_esperado : String) :
    Except PyErr (Dict ⊕ Resp) :=
  match pyGet event "tenant_id" with
  | .error e => .error e
  | .ok tenant_id =>
    match pyGetIdPedido event with
    | .error e => .error e
    | .ok id_pedido =>
      if !tenant_id.truthy || !id_pedido.truthy then
        .ok (.inr resp_faltan)
      else
        match obtener_pedido db tenant_id id_pedido with
        | none => .ok (.inr (resp_no_encontrado tenant_id id_pedido))
        | some pedido =>
          if pedido.isEmpty then
            .ok (.inr (resp_no_encontrado tenant_id id_pedido))
          else
            let estado_actual := getJ pedido "estado_pedido"
            if estado_actual ≠ Json.str estado_esperado then
              .ok (.inr (resp_estado_incorrecto estado_actual estado_esperado))
            else .ok (.inl pedido)

-- ---------------------------------------------------------------- --
-- The stage records and order updates the handlers write.
-- ---------------------------------------------------------------- --

/-- The COCINA record opened by `pagado_a_cocina`. -/
def item_cocina (id_pedido id_empleado : Json) (hora : String) : Dict :=
  [("id_pedido", id_pedido),
   ("id_empleado", if id_empleado.truthy then id_empleado else .str "no_asignado"),
   ("hora_comienzo", .str hora),
   ("hora_fin", .null),
   ("status", .str "cocinando")]

/-- The DESPACHADOR record opened by `cocina_a_empaquetamiento`. -/
def item_despachador (id_pedido id_empleado : Json) (hora : String) : Dict :=
  [("id_pedido", id_pedido),
   ("id_empleado", if id_empleado.truthy then id_empleado else .str "no_asignado"),
   ("hora_comienzo", .str hora),
   ("hora_fin", .null),
   ("status", .str "cocinando")]

/-- The DELIVERY record opened by `empaquetamiento_a_delivery`. -/
def item_delivery (id_pedido tenant_id repartidor id_repartidor origen destino : Json) :
    Dict :=
  [("id_pedido", id_pedido),
   ("tenant_id", tenant_id),
   ("repartidor", if repartidor.truthy then repartidor else .str "no_asignado"),
   ("id_repartidor", if id_repartidor.truthy then id_repartidor else .str "no_asignado"),
   ("origen", if origen.truthy then origen else .str "no_definido"),
   ("destino", if destino.truthy then destino else .str "no_definido"),
   ("status", .str "en camino")]

/-- `SET estado_pedido = :e` plus the token field when a task token
came with the request. -/
def token_sets (estado campo : String) (task_token : Json) : Dict :=
  if task_token.truthy then [("estado_pedido", .str estado), (campo, task_token)]
  else [("estado_pedido", .str estado)]

-- ---------------------------------------------------------------- --
-- The four transition handlers.  `clock n` models the n-th call to
-- `obtener_timestamp_iso()` inside one invocation.  Each handler is
-- split into the guard prefix and a `_core` holding the source lines
-- after the guard.  The result is the response (or raised exception)
-- together with the world after the call; raising keeps the writes
-- already performed.
-- ---------------------------------------------------------------- --

def pagado_a_cocina_core (clock : Nat → String) (ev : Json) (pedido : Dict)
    (db : Db) : Except PyErr Resp × Db :=
  match lookupKV pedido "tenant_id", lookupKV pedido "id" with
  | some tenant_id, some id_pedido =>
    match pyGet ev "id_empleado", pyGet ev "taskToken" with
    | .ok id_empleado, .ok task_token =>
      let item := item_cocina id_pedido id_empleado (clock 0)
      let db1 := { db with cocina := putTab db.cocina id_pedido item }
      let ped2 := updateTab db1.pedidos (tenant_id, id_pedido)
        [("tenant_id", tenant_id), ("id", id_pedido)]
        (token_sets "cocina" "task_token_cocina" task_token) []
      let db2 := { db1 with pedidos := ped2 }
      (.ok ⟨200,
        [("mensaje", .str "Transición pagado -> cocina realizada (esperando confirmación de cocina si viene de Step Functions)"),
         ("pedido", .obj [("tenant_id", tenant_id), ("id_pedido", id_pedido)]),
         ("registro_cocina", .obj item),
         ("taskToken_guardado", .bool task_token.truthy)]⟩, db2)
    | _, _ => (.error .attributeError, db)
  | _, _ => (.error .keyError, db)

def pagado_a_cocina (clock : Nat → String) (event : Dict) (db : Db) :
    Except PyErr Resp × Db :=
  match parse_event event with
  | .error e => (.error e, db)
  | .ok ev =>
    match validar_pedido_y_estado db ev "pagado" with
    | .error e => (.error e, db)
    | .ok (.inr err) => (.ok err, db)
    | .ok (.inl pedido) => pagado_a_cocina_core clock ev pedido db

def cocina_a_empaquetamiento_core (clock : Nat → String) (ev : Json)
    (pedido : Dict) (db : Db) : Except PyErr Resp × Db :=
  match lookupKV pedido "tenant_id", lookupKV pedido "id" with
  | some tenant_id, some id_pedido =>
    match pyGet ev "id_empleado", pyGet ev "taskToken" with
    | .ok id_empleado_despachador, .ok task_token =>
      let coc1 := updateTab db.cocina id_pedido [("id_pedido", id_pedido)]
        [("hora_fin", .str (clock 0)), ("status", .str "terminado")] []
      let db1 := { db with cocina := coc1 }
      let item := item_despachador id_pedido id_empleado_despachador (clock 1)
      let db2 := { db1 with despachador := putTab db1.despachador id_pedido item }
      let ped3 := updateTab db2.pedidos (tenant_id, id_pedido)
        [("tenant_id", tenant_id), ("id", id_pedido)]
        (token_sets "empaquetamiento" "task_token_empaquetamiento" task_token) []
      let db3 := { db2 with pedidos := ped3 }
      (.ok ⟨200,
        [("mensaje", .str "Transición cocina -> empaquetamiento realizada (esperando confirmación de empaquetamiento si viene de Step Functions)"),
         ("pedido", .obj [("tenant_id", tenant_id), ("id_pedido", id_pedido)]),
         ("detalle", .obj
           [("cocina", .obj [("id_pedido", id_pedido), ("status", .str "terminado")]),
            ("despachador", .obj item)]),
         ("taskToken_guardado", .bool task_token.truthy)]⟩, db3)
    | _, _ => (.error .attributeError, db)
  | _, _ => (.error .keyError, db)

def cocina_a_empaquetamiento (clock : Nat → String) (event : Dict) (db : Db) :
    Except PyErr Resp × Db :=
  match parse_event event with
  | .error e => (.error e, db)
  | .ok ev =>
    match validar_pedido_y_estado db ev "cocina" with
    | .error e => (.error e, db)
    | .ok (.inr err) => (.ok err, db)
    | .ok (.inl pedido) => cocina_a_empaquetamiento_core clock ev pedido db

def empaquetamiento_a_delivery_core (clock : Nat → String) (ev : Json)
    (pedido : Dict) (db : Db) : Except PyErr Resp × Db :=
  match lookupKV pedido "tenant_id", lookupKV pedido "id" with
  | some tenant_id, some id_pedido =>
    match pyGet ev "repartidor", pyGet ev "id_repartidor", pyGet ev "origen",
          pyGet ev "destino", pyGet ev "taskToken" with
    | .ok repartidor, .ok id_repartidor, .ok origen, .ok destino, .ok task_token =>
      let des1 := updateTab db.despachador id_pedido [("id_pedido", id_pedido)]
        [("hora_fin", .str (clock 0)), ("status", .str "terminado")] []
      let db1 := { db with despachador := des1 }
      let item := item_delivery id_pedido tenant_id repartidor id_repartidor origen destino
      let db2 := { db1 with delivery := putTab db1.delivery id_pedido item }
      let ped3 := updateTab db2.pedidos (tenant_id, id_pedido)
        [("tenant_id", tenant_id), ("id", id_pedido)]
        (token_sets "delivery" "task_token_delivery" task_token) []
      let db3 := { db2 with pedidos := ped3 }
      (.ok ⟨200,
        [("mensaje", .str "Transición empaquetamiento -> delivery realizada (esperando confirmación de entrega si viene de Step Functions)"),
         ("pedido", .obj [("tenant_id", tenant_id), ("id_pedido", id_pedido)]),
         ("detalle", .obj
           [("despachador", .obj [("id_pedido", id_pedido), ("status", .str "terminado")]),
            ("delivery", .obj item)]),
         ("taskToken_guardado", .bool task_token.truthy)]⟩, db3)
    | _, _, _, _, _ => (.error .attributeError, db)
  | _, _ => (.error .keyError, db)

def empaquetamiento_a_delivery (clock : Nat → String) (event : Dict) (db : Db) :
    Except PyErr Resp × Db :=
  match parse_event event with
  | .error e => (.error e, db)
  | .ok ev =>
    match validar_pedido_y_estado db ev "empaquetamiento" with
    | .error e => (.error e, db)
    | .ok (.inr err) => (.ok err, db)
    | .ok (.inl pedido) => empaquetamiento_a_delivery_core clock ev pedido db

def delivery_a_entregado_core (_ev : Json) (pedido : Dict) (db : Db) :
    Except PyErr Resp × Db :=
  match lookupKV pedido "tenant_id", lookupKV pedido "id" with
  | some tenant_id, some id_pedido =>
    let del1 := updateTab db.delivery id_pedido [("id_pedido", id_pedido)]
      [("status", .str "cumplido")] []
    let db1 := { db with delivery := del1 }
    let ped2 := updateTab db1.pedidos (tenant_id, id_pedido)
      [("tenant_id", tenant_id), ("id", id_pedido)]
      [("estado_pedido", .str "entregado")] []
    let db2 := { db1 with pedidos := ped2 }
    (.ok ⟨200,
      [("mensaje", .str "Transición delivery -> entregado realizada"),
       ("pedido", .obj [("tenant_id", tenant_id), ("id_pedido", id_pedido)]),
       ("delivery", .obj [("id_pedido", id_pedido), ("status", .str "cumplido")])]⟩, db2)
  | _, _ => (.error .keyError, db)

def delivery_a_entregado (event : Dict) (db : Db) : Except PyErr Resp × Db :=
  match parse_event event with
  | .error e => (.error e, db)
  | .ok ev =>
    match validar_pedido_y_estado db ev "delivery" with
    | .error e => (.error e, db)
    | .ok (.inr err) => (.ok err, db)
    | .ok (.inl pedido) => delivery_a_entregado_core ev pedido db

-- ---------------------------------------------------------------- --
-- `confirmar_paso`: the callback that signals Step Functions with
-- the stored task token and removes it from the order.
-- ---------------------------------------------------------------- --

/-- `mapa_paso_token.get(paso)`. -/
def mapa_paso_get (paso : Json) : Option String :=
  if paso = Json.str "cocina-lista" then some "task_token_cocina"
  else if paso = Json.str "empaquetamiento-listo" then some "task_token_empaquetamiento"
  else if paso = Json.str "delivery-entregado" then some "task_token_delivery"
  else none

/-- `mapa_paso_token.get(paso)` as Python runs it: an unhashable key —
a JSON array or object — raises `TypeError` before any lookup. -/
def mapa_paso_get_py (paso : Json) : Except PyErr (Option String) :=
  match paso with
  | .arr _ => .error .typeError
  | .obj _ => .error .typeError
  | _ => .ok (mapa_paso_get paso)

def msg_paso_no_soportado (paso : Json) : String :=
  "Paso " ++ sq ++ pyStr paso ++ sq ++ " no soportado. Usa uno de: [" ++
    sq ++ "cocina-lista" ++ sq ++ ", " ++
    sq ++ "empaquetamiento-listo" ++ sq ++ ", " ++
    sq ++ "delivery-entregado" ++ sq ++ "]"

def msg_token_no_encontrado (nombre_campo : String) : String :=
  "No se encontró " ++ nombre_campo ++ " para este pedido. ¿Se inició el flujo correctamente?"

def confirmar_paso (event : Dict) (db : Db) : Except PyErr Resp × Db :=
  match parse_event event with
  | .error e => (.error e, db)
  | .ok ev =>
    match pyGet ev "tenant_id", pyGetIdPedido ev, pyGet ev "paso" with
    | .ok tenant_id, .ok id_pedido, .ok paso =>
      if !tenant_id.truthy || !id_pedido.truthy || !paso.truthy then
        (.ok ⟨400, [("mensaje", .str "Faltan tenant_id, id_pedido o paso")]⟩, db)
      else
        match obtener_pedido db tenant_id id_pedido with
        | none => (.ok (resp_no_encontrado tenant_id id_pedido), db)
        | some pedido =>
          if pedido.isEmpty then
            (.ok (resp_no_encontrado tenant_id id_pedido), db)
          else
            match mapa_paso_get_py paso with
            | .error e => (.error e, db)
            | .ok none =>
              (.ok ⟨400, [("mensaje", .str (msg_paso_no_soportado paso))]⟩, db)
            | .ok (some nombre_campo) =>
              let task_token := getJ pedido nombre_campo
              if !task_token.truthy then
                (.ok ⟨400, [("mensaje", .str (msg_token_no_encontrado nombre_campo))]⟩, db)
              else
                let output : Dict :=
                  [("mensaje", .str ("Confirmación de paso " ++ sq ++ pyStr paso ++ sq)),
                   ("tenant_id", tenant_id), ("id_pedido", id_pedido)]
                let db1 := { db with enviados := db.enviados ++ [(task_token, output)] }
                let ped2 := updateTab db1.pedidos (tenant_id, id_pedido)
                  [("tenant_id", tenant_id), ("id", id_pedido)] [] [nombre_campo]
                let db2 := { db1 with pedidos := ped2 }
                (.ok ⟨200,
                  [("mensaje", .str ("Confirmación " ++ sq ++ pyStr paso ++ sq ++
                     " enviada a Step Functions")),
                   ("tenant_id", tenant_id), ("id_pedido", id_pedido)]⟩, db2)
    | _, _, _ => (.error .attributeError, db)

-- ---------------------------------------------------------------- --
-- The state machine seen as four edges, for claims quantifying over
-- every transition handler.
-- ---------------------------------------------------------------- --

inductive Transition where
  | toCocina : Transition
  | toEmpaquetamiento : Transition
  | toDelivery : Transition
  | toEntregado : Transition
deriving DecidableEq

/-- The prior state each handler's guard expects. -/
def estado_esperado : Transition → String
  | .toCocina => "pagado"
  | .toEmpaquetamiento => "cocina"
  | .toDelivery => "empaquetamiento"
  | .toEntregado => "delivery"

/-- The state each handler writes on success. -/
def estado_siguiente : Transition → String
  | .toCocina => "cocina"
  | .toEmpaquetamiento => "empaquetamiento"
  | .toDelivery => "delivery"
  | .toEntregado => "entregado"

/-- Dispatch to the handler of an edge. -/
def runTransition : Transition → (Nat → String) → Dict → Db → Except PyErr Resp × Db
  | .toCocina, clock, ev, db => pagado_a_cocina clock ev db
  | .toEmpaquetamiento, clock, ev, db => cocina_a_empaquetamiento clock ev db
  | .toDelivery, clock, ev, db => empaquetamiento_a_delivery clock ev db
  | .toEntregado, _, ev, db => delivery_a_entregado ev db

/-- The post-guard body of the handler of an edge. -/
def runTransitionCore :
    Transition → (Nat → String) → Json → Dict → Db → Except PyErr Resp × Db
  | .toCocina, clock, ev, pedido, db => pagado_a_cocina_core clock ev pedido db
  | .toEmpaquetamiento, clock, ev, pedido, db =>
    cocina_a_empaquetamiento_core clock ev pedido db
  | .toDelivery, clock, ev, pedido, db =>
    empaquetamiento_a_delivery_core clock ev pedido db
  | .toEntregado, _, ev, pedido, db => delivery_a_entregado_core ev pedido db

/-- The token field a transition may store (`delivery_a_entregado`
stores none; its entry here is a placeholder never written because its
token value is modelled as null). -/
def campoToken : Transition → String
  | .toCocina => "task_token_cocina"
  | .toEmpaquetamiento => "task_token_empaquetamiento"
  | .toDelivery => "task_token_delivery"
  | .toEntregado => "task_token_delivery"

/-- The linear chain of order states. -/
def cadena_estados : List String :=
  ["pagado", "cocina", "empaquetamiento", "delivery", "entregado"]

/-- Status code of a handler result, `none` when it raised. -/
def statusOf (r : Except PyErr Resp × Db) : Option Nat :=
  match r.1 with
  | .ok resp => some resp.statusCode
  | .error _ => none

/-- The stored state of order `(t, o)` after a handler result. -/
def estadoEn (db : Db) (t o : Json) : Option Json :=
  (lookupTab db.pedidos (t, o)).map (fun it => getJ it "estado_pedido")

-- Smoke tests on a tiny world.

def dbEjemplo : Db :=
  ⟨[((.str "t1", .str "o1"),
     [("tenant_id", .str "t1"), ("id", .str "o1"),
      ("estado_pedido", .str "pagado")])], [], [], [], []⟩

example :
    statusOf (pagado_a_cocina (fun _ => "ts0")
      [("body", .str "\x7b\"tenant_id\":\"t1\",\"id_pedido\":\"o1\",\"id_empleado\":\"e1\"\x7d")]
      dbEjemplo) = some 200 := by decide

example :
    estadoEn (pagado_a_cocina (fun _ => "ts0")
      [("body", .str "\x7b\"tenant_id\":\"t1\",\"id_pedido\":\"o1\",\"id_empleado\":\"e1\"\x7d")]
      dbEjemplo).2 (.str "t1") (.str "o1") = some (.str "cocina") := by decide

example :
    statusOf (cocina_a_empaquetamiento (fun _ => "ts0")
      [("tenant_id", .str "t1"), ("id_pedido", .str "o1")] dbEjemplo) = some 400 := by
  decide

example :
    statusOf (delivery_a_entregado
      [("tenant_id", .str "t1"), ("id_pedido", .str "oX")] dbEjemplo) = some 404 := by
  decide

-- ---------------------------------------------------------------- --
-- Token invariant, operations and reachability (for the claim about
-- at most one task token being present at a time).
-- ---------------------------------------------------------------- --

/-- An order record holding none of the three token fields. -/
def sinTokens (it : Dict) : Bool :=
  (lookupKV it "task_token_cocina").isNone &&
  (lookupKV it "task_token_empaquetamiento").isNone &&
  (lookupKV it "task_token_delivery").isNone

/-- The claimed invariant of one order record: at most one of the
three token fields is present, and the one present matches the stage
currently awaiting confirmation (token_cocina while the order is in
"cocina", and so on). -/
def itemInv (it : Dict) : Bool :=
  let c := (lookupKV it "task_token_cocina").isSome
  let e := (lookupKV it "task_token_empaquetamiento").isSome
  let d := (lookupKV it "task_token_delivery").isSome
  (!(c && e) && !(c && d) && !(e && d)) &&
  (!c || (getJ it "estado_pedido" == Json.str "cocina")) &&
  (!e || (getJ it "estado_pedido" == Json.str "empaquetamiento")) &&
  (!d || (getJ it "estado_pedido" == Json.str "delivery"))

/-- Every order record of the world satisfies the token invariant. -/
def InvDb (db : Db) : Prop := ∀ e ∈ db.pedidos, itemInv e.2 = true

/-- Every stored order carries its own key attributes (DynamoDB keeps
the key attributes inside the item). -/
def WFdb (db : Db) : Prop :=
  ∀ e ∈ db.pedidos,
    lookupKV e.2 "tenant_id" = some e.1.1 ∧ lookupKV e.2 "id" = some e.1.2

/-- One invocation of the system. -/
inductive Op where
  | avanzar : Transition → (Nat → String) → Dict → Op
  | confirmar : Dict → Op

/-- The world after an invocation (exceptions keep the writes made so
far, which the handlers issue only after all reads). -/
def runOp : Op → Db → Db
  | .avanzar tr clock event, db => (runTransition tr clock event db).2
  | .confirmar event, db => (confirmar_paso event db).2

/-- The guard of a transition admits `pedido` for this request. -/
def GuardPass (db : Db) (event : Dict) (esp : String) (pedido : Dict) : Prop :=
  ∃ ev, parse_event event = .ok ev ∧
    validar_pedido_y_estado db ev esp = .ok (.inl pedido)

/-- The orchestrator's confirm-before-advance discipline: a transition
handler is invoked only when the order it would act on holds no token
field.  Confirmations are always allowed. -/
def Disciplinado (db : Db) : Op → Prop
  | .avanzar tr _ event =>
    ∀ pedido, GuardPass db event (estado_esperado tr) pedido → sinTokens pedido = true
  | .confirmar _ => True

/-- Worlds reachable under the confirm-before-advance discipline from
an initial world whose orders are well-keyed and token-free. -/
inductive AlcanzableD : Db → Prop where
  | inicial : ∀ db : Db, WFdb db → (∀ e ∈ db.pedidos, sinTokens e.2 = true) →
      AlcanzableD db
  | paso : ∀ db : Db, ∀ op : Op, AlcanzableD db → Disciplinado db op →
      AlcanzableD (runOp op db)

/-- Worlds reachable by arbitrary sequences of operations from such an
initial world (no discipline). -/
inductive Alcanzable : Db → Prop where
  | inicial : ∀ db : Db, WFdb db → (∀ e ∈ db.pedidos, sinTokens e.2 = true) →
      Alcanzable db
  | paso : ∀ db : Db, ∀ op : Op, Alcanzable db → Alcanzable (runOp op db)

-- ---------------------------------------------------------------- --
-- Guard case lemmas, shared by the handler proofs.
-- ---------------------------------------------------------------- --

theorem pyGet_obj (m : Dict) (k : String) : pyGet (.obj m) k = .ok (getJ m k) := rfl

theorem pyGetIdPedido_obj (m : Dict) :
    pyGetIdPedido (.obj m) = .ok (resuelveId m) := by
  simp only [pyGetIdPedido, pyGet, resuelveId]
  split <;> rfl

theorem validar_ok (db : Db) (m : Dict) (esp : String) (pedido : Dict)
    (ht : (getJ m "tenant_id").truthy = true)
    (ho : (resuelveId m).truthy = true)
    (hl : obtener_pedido db (getJ m "tenant_id") (resuelveId m) = some pedido)
    (hne : pedido ≠ [])
    (hs : getJ pedido "estado_pedido" = .str esp) :
    validar_pedido_y_estado db (.obj m) esp = .ok (.inl pedido) := by
  unfold validar_pedido_y_estado
  rw [pyGet_obj, pyGetIdPedido_obj]
  simp [ht, ho, hl, hs, List.isEmpty_iff, hne]

theorem validar_estado_incorrecto (db : Db) (m : Dict) (esp : String) (pedido : Dict)
    (ht : (getJ m "tenant_id").truthy = true)
    (ho : (resuelveId m).truthy = true)
    (hl : obtener_pedido db (getJ m "tenant_id") (resuelveId m) = some pedido)
    (hne : pedido ≠ [])
    (hs : getJ pedido "estado_pedido" ≠ .str esp) :
    validar_pedido_y_estado db (.obj m) esp =
      .ok (.inr (resp_estado_incorrecto (getJ pedido "estado_pedido") esp)) := by
  unfold validar_pedido_y_estado
  rw [pyGet_obj, pyGetIdPedido_obj]
  simp [ht, ho, hl, hs, List.isEmpty_iff, hne]

theorem validar_no_encontrado (db : Db) (m : Dict) (esp : String)
    (ht : (getJ m "tenant_id").truthy = true)
    (ho : (resuelveId m).truthy = true)
    (hl : obtener_pedido db (getJ m "tenant_id") (resuelveId m) = none) :
    validar_pedido_y_estado db (.obj m) esp =
      .ok (.inr (resp_no_encontrado (getJ m "tenant_id") (resuelveId m))) := by
  unfold validar_pedido_y_estado
  rw [pyGet_obj, pyGetIdPedido_obj]
  simp [ht, ho, hl]

theorem validar_faltan (db : Db) (m : Dict) (esp : String)
    (h : (getJ m "tenant_id").truthy = false ∨ (resuelveId m).truthy = false) :
    validar_pedido_y_estado db (.obj m) esp = .ok (.inr resp_faltan) := by
  unfold validar_pedido_y_estado
  rw [pyGet_obj, pyGetIdPedido_obj]
  rcases h with h | h <;> simp [h]

theorem validar_pedido_vacio (db : Db) (m : Dict) (esp : String)
    (ht : (getJ m "tenant_id").truthy = true)
    (ho : (resuelveId m).truthy = true)
    (hl : obtener_pedido db (getJ m "tenant_id") (resuelveId m) = some []) :
    validar_pedido_y_estado db (.obj m) esp =
      .ok (.inr (resp_no_encontrado (getJ m "tenant_id") (resuelveId m))) := by
  unfold validar_pedido_y_estado
  rw [pyGet_obj, pyGetIdPedido_obj]
  simp [ht, ho, hl]

-- ---------------------------------------------------------------- --
-- Handler characterization lemmas.
-- ---------------------------------------------------------------- --

/-- Any handler returns the guard's error response without touching
the world. -/
theorem runTransition_guard_err (tr : Transition) (clock : Nat → String)
    (event : Dict) (db : Db) (ev : Json) (r : Resp)
    (hp : parse_event event = .ok ev)
    (hv : validar_pedido_y_estado db ev (estado_esperado tr) = .ok (.inr r)) :
    runTransition tr clock event db = (.ok r, db) := by
  cases tr <;>
    simp only [runTransition, estado_esperado] at hv ⊢ <;>
    simp only [pagado_a_cocina, cocina_a_empaquetamiento, empaquetamiento_a_delivery,
      delivery_a_entregado, hp, hv]

theorem pagado_a_cocina_core_eq (clock : Nat → String) (evm pedido : Dict)
    (db : Db) (t o : Json)
    (hkt : lookupKV pedido "tenant_id" = some t)
    (hko : lookupKV pedido "id" = some o) :
    pagado_a_cocina_core clock (.obj evm) pedido db =
      (.ok ⟨200,
        [("mensaje", .str "Transición pagado -> cocina realizada (esperando confirmación de cocina si viene de Step Functions)"),
         ("pedido", .obj [("tenant_id", t), ("id_pedido", o)]),
         ("registro_cocina", .obj (item_cocina o (getJ evm "id_empleado") (clock 0))),
         ("taskToken_guardado", .bool (getJ evm "taskToken").truthy)]⟩,
       { db with
          cocina := putTab db.cocina o (item_cocina o (getJ evm "id_empleado") (clock 0)),
          pedidos := updateTab db.pedidos (t, o) [("tenant_id", t), ("id", o)]
            (token_sets "cocina" "task_token_cocina" (getJ evm "taskToken")) [] }) := by
  unfold pagado_a_cocina_core
  rw [hkt, hko]
  rfl

theorem cocina_a_empaquetamiento_core_eq (clock : Nat → String) (evm pedido : Dict)
    (db : Db) (t o : Json)
    (hkt : lookupKV pedido "tenant_id" = some t)
    (hko : lookupKV pedido "id" = some o) :
    cocina_a_empaquetamiento_core clock (.obj evm) pedido db =
      (.ok ⟨200,
        [("mensaje", .str "Transición cocina -> empaquetamiento realizada (esperando confirmación de empaquetamiento si viene de Step Functions)"),
         ("pedido", .obj [("tenant_id", t), ("id_pedido", o)]),
         ("detalle", .obj
           [("cocina", .obj [("id_pedido", o), ("status", .str "terminado")]),
            ("despachador", .obj (item_despachador o (getJ evm "id_empleado") (clock 1)))]),
         ("taskToken_guardado", .bool (getJ evm "taskToken").truthy)]⟩,
       { db with
          cocina := updateTab db.cocina o [("id_pedido", o)]
            [("hora_fin", .str (clock 0)), ("status", .str "terminado")] [],
          despachador := putTab db.despachador o
            (item_despachador o (getJ evm "id_empleado") (clock 1)),
          pedidos := updateTab db.pedidos (t, o) [("tenant_id", t), ("id", o)]
            (token_sets "empaquetamiento" "task_token_empaquetamiento"
              (getJ evm "taskToken")) [] }) := by
  unfold cocina_a_empaquetamiento_core
  rw [hkt, hko]
  rfl

theorem empaquetamiento_a_delivery_core_eq (clock : Nat → String) (evm pedido : Dict)
    (db : Db) (t o : Json)
    (hkt : lookupKV pedido "tenant_id" = some t)
    (hko : lookupKV pedido "id" = some o) :
    empaquetamiento_a_delivery_core clock (.obj evm) pedido db =
      (.ok ⟨200,
        [("mensaje", .str "Transición empaquetamiento -> delivery realizada (esperando confirmación de entrega si viene de Step Functions)"),
         ("pedido", .obj [("tenant_id", t), ("id_pedido", o)]),
         ("detalle", .obj
           [("despachador", .obj [("id_pedido", o), ("status", .str "terminado")]),
            ("delivery", .obj (item_delivery o t (getJ evm "repartidor")
              (getJ evm "id_repartidor") (getJ evm "origen") (getJ evm "destino")))]),
         ("taskToken_guardado", .bool (getJ evm "taskToken").truthy)]⟩,
       { db with
          despachador := updateTab db.despachador o [("id_pedido", o)]
            [("hora_fin", .str (clock 0)), ("status", .str "terminado")] [],
          delivery := putTab db.delivery o
            (item_delivery o t (getJ evm "repartidor") (getJ evm "id_repartidor")
              (getJ evm "origen") (getJ evm "destino")),
          pedidos := updateTab db.pedidos (t, o) [("tenant_id", t), ("id", o)]
            (token_sets "delivery" "task_token_delivery" (getJ evm "taskToken")) [] }) := by
  unfold empaquetamiento_a_delivery_core
  rw [hkt, hko]
  rfl

theorem delivery_a_entregado_core_eq (ev : Json) (pedido : Dict)
    (db : Db) (t o : Json)
    (hkt : lookupKV pedido "tenant_id" = some t)
    (hko : lookupKV pedido "id" = some o) :
    delivery_a_entregado_core ev pedido db =
      (.ok ⟨200,
        [("mensaje", .str "Transición delivery -> entregado realizada"),
         ("pedido", .obj [("tenant_id", t), ("id_pedido", o)]),
         ("delivery", .obj [("id_pedido", o), ("status", .str "cumplido")])]⟩,
       { db with
          delivery := updateTab db.delivery o [("id_pedido", o)]
            [("status", .str "cumplido")] [],
          pedidos := updateTab db.pedidos (t, o) [("tenant_id", t), ("id", o)]
            [("estado_pedido", .str "entregado")] [] }) := by
  unfold delivery_a_entregado_core
  rw [hkt, hko]

/-- When the guard passes, a handler runs its post-guard body. -/
theorem runTransition_guard_ok (tr : Transition) (clock : Nat → String)
    (event : Dict) (db : Db) (ev : Json) (pedido : Dict)
    (hp : parse_event event = .ok ev)
    (hv : validar_pedido_y_estado db ev (estado_esperado tr) = .ok (.inl pedido)) :
    runTransition tr clock event db = runTransitionCore tr clock ev pedido db := by
  cases tr <;>
    simp only [runTransition, runTransitionCore, estado_esperado] at hv ⊢ <;>
    simp only [pagado_a_cocina, cocina_a_empaquetamiento, empaquetamiento_a_delivery,
      delivery_a_entregado, hp, hv]

-- ---------------------------------------------------------------- --
-- Dict and table lemmas.
-- ---------------------------------------------------------------- --

@[simp] theorem lookupKV_setKV (d : Dict) (k : String) (v : Json) (q : String) :
    lookupKV (setKV d k v) q = if k = q then some v else lookupKV d q := by
  induction d with
  | nil => simp [setKV, lookupKV]
  | cons p rest ih =>
    obtain ⟨a, b⟩ := p
    by_cases hak : a = k
    · subst hak
      by_cases hq : a = q <;> simp [setKV, lookupKV, hq]
    · by_cases hq : a = q
      · subst hq
        have : ¬(k = a) := fun h => hak h.symm
        simp [setKV, lookupKV, hak, this]
      · simp [setKV, lookupKV, hak, hq, ih]

@[simp] theorem lookupKV_removeKV (d : Dict) (k q : String) :
    lookupKV (removeKV d k) q = if k = q then none else lookupKV d q := by
  induction d with
  | nil => simp [removeKV, lookupKV]
  | cons p rest ih =>
    obtain ⟨a, b⟩ := p
    by_cases hak : a = k
    · subst hak
      by_cases hq : a = q
      · subst hq
        simp [removeKV, ih]
      · simp [removeKV, lookupKV, hq, ih]
    · by_cases hq : a = q
      · subst hq
        have : ¬(k = a) := fun h => hak h.symm
        simp [removeKV, lookupKV, hak, this]
      · simp [removeKV, lookupKV, hak, hq, ih]

@[simp] theorem lookupTab_putTab {κ : Type} [DecidableEq κ]
    (tbl : List (κ × Dict)) (key : κ) (it : Dict) (q : κ) :
    lookupTab (putTab tbl key it) q = if key = q then some it else lookupTab tbl q := by
  induction tbl with
  | nil => simp [putTab, lookupTab]
  | cons p rest ih =>
    obtain ⟨a, b⟩ := p
    by_cases hak : a = key
    · subst hak
      by_cases hq : a = q <;> simp [putTab, lookupTab, hq]
    · by_cases hq : a = q
      · subst hq
        have : ¬(key = a) := fun h => hak h.symm
        simp [putTab, lookupTab, hak, this]
      · simp [putTab, lookupTab, hak, hq, ih]

theorem lookupTab_updateTab {κ : Type} [DecidableEq κ]
    (tbl : List (κ × Dict)) (key : κ) (attrs sets : Dict) (removes : List String) (q : κ) :
    lookupTab (updateTab tbl key attrs sets removes) q =
      if key = q then
        some (applyRemoves (applySets ((lookupTab tbl key).getD attrs) sets) removes)
      else lookupTab tbl q := by
  unfold updateTab
  cases h : lookupTab tbl key <;> simp [h]

theorem getJ_applySets_token_sets (pedido : Dict) (est campo : String) (tok : Json)
    (hc : campo ≠ "estado_pedido") :
    getJ (applySets pedido (token_sets est campo tok)) "estado_pedido" = .str est := by
  unfold token_sets
  by_cases h : tok.truthy <;> simp [h, applySets, getJ, hc]

-- ---------------------------------------------------------------- --
-- Claim theorems.
-- ---------------------------------------------------------------- --

/-- Claim C1: every transition handler, called on an existing order whose
`estado_pedido` equals the handler's expected prior state, answers 200 and
leaves the order in the next state of the strictly linear chain
pagado (paid) -> cocina (kitchen) -> empaquetamiento (packaging) ->
delivery -> entregado (delivered) — the written state sits exactly one
position after the expected one, so no skipping and no rollback; on a
differing prior state the handler answers 400 (BadRequest). -/
theorem c1_transiciones_lineales (tr : Transition) (clock : Nat → String)
    (event : Dict) (db : Db) (m pedido : Dict) (t o : Json)
    (hp : parse_event event = .ok (.obj m))
    (ht : getJ m "tenant_id" = t) (htt : t.truthy = true)
    (ho : resuelveId m = o) (hot : o.truthy = true)
    (hl : lookupTab db.pedidos (t, o) = some pedido) (hne : pedido ≠ [])
    (hkt : lookupKV pedido "tenant_id" = some t)
    (hko : lookupKV pedido "id" = some o) :
    (List.indexOf (estado_siguiente tr) cadena_estados
        = List.indexOf (estado_esperado tr) cadena_estados + 1)
    ∧ (getJ pedido "estado_pedido" = .str (estado_esperado tr) →
        statusOf (runTransition tr clock event db) = some 200 ∧
        estadoEn (runTransition tr clock event db).2 t o =
          some (.str (estado_siguiente tr)))
    ∧ (getJ pedido "estado_pedido" ≠ .str (estado_esperado tr) →
        statusOf (runTransition tr clock event db) = some 400) := by
  have hobt : obtener_pedido db (getJ m "tenant_id") (resuelveId m) = some pedido := by
    rw [ht, ho]; exact hl
  refine ⟨by cases tr <;> decide, ?_, ?_⟩
  · intro hs
    have hv := validar_ok db m (estado_esperado tr) pedido (ht ▸ htt) (ho ▸ hot)
      hobt hne hs
    rw [runTransition_guard_ok tr clock event db (.obj m) pedido hp hv]
    cases tr
    · rw [show runTransitionCore .toCocina clock (.obj m) pedido db =
          pagado_a_cocina_core clock (.obj m) pedido db from rfl,
        pagado_a_cocina_core_eq clock m pedido db t o hkt hko]
      refine ⟨rfl, ?_⟩
      simp [estadoEn, lookupTab_updateTab, hl,
        getJ_applySets_token_sets pedido "cocina" "task_token_cocina"
          (getJ m "taskToken") (by decide), applyRemoves,
        estado_siguiente]
    · rw [show runTransitionCore .toEmpaquetamiento clock (.obj m) pedido db =
          cocina_a_empaquetamiento_core clock (.obj m) pedido db from rfl,
        cocina_a_empaquetamiento_core_eq clock m pedido db t o hkt hko]
      refine ⟨rfl, ?_⟩
      simp [estadoEn, lookupTab_updateTab, hl,
        getJ_applySets_token_sets pedido "empaquetamiento" "task_token_empaquetamiento"
          (getJ m "taskToken") (by decide), applyRemoves,
        estado_siguiente]
    · rw [show runTransitionCore .toDelivery clock (.obj m) pedido db =
          empaquetamiento_a_delivery_core clock (.obj m) pedido db from rfl,
        empaquetamiento_a_delivery_core_eq clock m pedido db t o hkt hko]
      refine ⟨rfl, ?_⟩
      simp [estadoEn, lookupTab_updateTab, hl,
        getJ_applySets_token_sets pedido "delivery" "task_token_delivery"
          (getJ m "taskToken") (by decide), applyRemoves,
        estado_siguiente]
    · rw [show runTransitionCore .toEntregado clock (.obj m) pedido db =
          delivery_a_entregado_core (.obj m) pedido db from rfl,
        delivery_a_entregado_core_eq (.obj m) pedido db t o hkt hko]
      refine ⟨rfl, ?_⟩
      simp [estadoEn, lookupTab_updateTab, hl, applySets, applyRemoves, getJ,
        estado_siguiente]
  · intro hs
    have hv := validar_estado_incorrecto db m (estado_esperado tr) pedido
      (ht ▸ htt) (ho ▸ hot) hobt hne hs
    rw [runTransition_guard_err tr clock event db (.obj m) _ hp hv]
    simp [statusOf, resp_estado_incorrecto]

/-- Witness for C1: advancing the example paid order to the kitchen
answers 200 and stores state "cocina". -/
theorem c1_transiciones_lineales_witness :
    statusOf (runTransition .toCocina (fun _ => "ts")
      [("tenant_id", .str "t1"), ("id_pedido", .str "o1"), ("id_empleado", .str "e1")]
      dbEjemplo) = some 200 ∧
    estadoEn (runTransition .toCocina (fun _ => "ts")
      [("tenant_id", .str "t1"), ("id_pedido", .str "o1"), ("id_empleado", .str "e1")]
      dbEjemplo).2 (.str "t1") (.str "o1") = some (.str "cocina") :=
  (c1_transiciones_lineales .toCocina (fun _ => "ts")
    [("tenant_id", .str "t1"), ("id_pedido", .str "o1"), ("id_empleado", .str "e1")]
    dbEjemplo
    [("tenant_id", .str "t1"), ("id_pedido", .str "o1"), ("id_empleado", .str "e1")]
    [("tenant_id", .str "t1"), ("id", .str "o1"), ("estado_pedido", .str "pagado")]
    (.str "t1") (.str "o1") rfl (by decide) (by decide) (by decide)
    (by decide) (by decide) (by decide) (by decide) (by decide)).2.1 (by decide)

/-- Claim C2: a transition handler called on an order in the wrong state
answers 400 and leaves the whole world untouched; called with an unknown
`(tenant_id, id_pedido)` it answers 404 and leaves the whole world
untouched. -/
theorem c2_errores_sin_escrituras (tr : Transition) (clock : Nat → String)
    (event : Dict) (db : Db) (m : Dict) (t o : Json)
    (hp : parse_event event = .ok (.obj m))
    (ht : getJ m "tenant_id" = t) (htt : t.truthy = true)
    (ho : resuelveId m = o) (hot : o.truthy = true) :
    (∀ pedido : Dict, lookupTab db.pedidos (t, o) = some pedido → pedido ≠ [] →
      getJ pedido "estado_pedido" ≠ .str (estado_esperado tr) →
      statusOf (runTransition tr clock event db) = some 400 ∧
      (runTransition tr clock event db).2 = db)
    ∧ (lookupTab db.pedidos (t, o) = none →
      statusOf (runTransition tr clock event db) = some 404 ∧
      (runTransition tr clock event db).2 = db) := by
  constructor
  · intro pedido hl hne hs
    have hv := validar_estado_incorrecto db m (estado_esperado tr) pedido
      (ht ▸ htt) (ho ▸ hot) (by rw [obtener_pedido, ht, ho]; exact hl) hne hs
    rw [runTransition_guard_err tr clock event db (.obj m) _ hp hv]
    simp [statusOf, resp_estado_incorrecto]
  · intro hl
    have hv := validar_no_encontrado db m (estado_esperado tr)
      (ht ▸ htt) (ho ▸ hot) (by rw [obtener_pedido, ht, ho]; exact hl)
    rw [runTransition_guard_err tr clock event db (.obj m) _ hp hv]
    simp [statusOf, resp_no_encontrado]

/-- Witness for C2: on the example world, asking for the kitchen ->
packaging transition while the order is still "pagado" answers 400 and
changes nothing; an unknown order id answers 404 and changes nothing. -/
theorem c2_errores_sin_escrituras_witness :
    (statusOf (runTransition .toEmpaquetamiento (fun _ => "ts")
        [("tenant_id", .str "t1"), ("id_pedido", .str "o1")] dbEjemplo) = some 400 ∧
      (runTransition .toEmpaquetamiento (fun _ => "ts")
        [("tenant_id", .str "t1"), ("id_pedido", .str "o1")] dbEjemplo).2 = dbEjemplo) ∧
    (statusOf (runTransition .toCocina (fun _ => "ts")
        [("tenant_id", .str "t1"), ("id_pedido", .str "oX")] dbEjemplo) = some 404 ∧
      (runTransition .toCocina (fun _ => "ts")
        [("tenant_id", .str "t1"), ("id_pedido", .str "oX")] dbEjemplo).2 = dbEjemplo) :=
  ⟨(c2_errores_sin_escrituras .toEmpaquetamiento (fun _ => "ts")
      [("tenant_id", .str "t1"), ("id_pedido", .str "o1")] dbEjemplo
      [("tenant_id", .str "t1"), ("id_pedido", .str "o1")]
      (.str "t1") (.str "o1") rfl (by decide) (by decide) (by decide)
      (by decide)).1
      [("tenant_id", .str "t1"), ("id", .str "o1"), ("estado_pedido", .str "pagado")]
      (by decide) (by decide) (by decide),
   (c2_errores_sin_escrituras .toCocina (fun _ => "ts")
      [("tenant_id", .str "t1"), ("id_pedido", .str "oX")] dbEjemplo
      [("tenant_id", .str "t1"), ("id_pedido", .str "oX")]
      (.str "t1") (.str "oX") rfl (by decide) (by decide) (by decide)
      (by decide)).2 (by decide)⟩

/-- Claim C7: the Guard accepts either `id_pedido` or `id` as the
order-id field (preferring a truthy `id_pedido`); answers 400 when the
tenant or order id is missing (falsy); answers 404 when no order exists
under the key; answers 400 with a message carrying both the actual and
the expected state when the states differ; otherwise hands back the
full stored order record — and whenever the guard rejects, the handler
that called it leaves the world untouched (the Guard itself has no way
to write: it only reads the table). -/
theorem c7_guardia (db : Db) (m pedido : Dict) (esp : String) :
    ((getJ m "id_pedido").truthy = true → resuelveId m = getJ m "id_pedido")
    ∧ ((getJ m "id_pedido").truthy = false → resuelveId m = getJ m "id")
    ∧ ((getJ m "tenant_id").truthy = false ∨ (resuelveId m).truthy = false →
      validar_pedido_y_estado db (.obj m) esp = .ok (.inr resp_faltan) ∧
      resp_faltan.statusCode = 400 ∧
      getJ resp_faltan.body "mensaje" = .str "Faltan tenant_id o id_pedido en el event")
    ∧ ((getJ m "tenant_id").truthy = true → (resuelveId m).truthy = true →
      obtener_pedido db (getJ m "tenant_id") (resuelveId m) = none →
      validar_pedido_y_estado db (.obj m) esp =
        .ok (.inr (resp_no_encontrado (getJ m "tenant_id") (resuelveId m))) ∧
      (resp_no_encontrado (getJ m "tenant_id") (resuelveId m)).statusCode = 404)
    ∧ ((getJ m "tenant_id").truthy = true → (resuelveId m).truthy = true →
      obtener_pedido db (getJ m "tenant_id") (resuelveId m) = some pedido →
      pedido ≠ [] → getJ pedido "estado_pedido" ≠ .str esp →
      validar_pedido_y_estado db (.obj m) esp =
        .ok (.inr (resp_estado_incorrecto (getJ pedido "estado_pedido") esp)) ∧
      (resp_estado_incorrecto (getJ pedido "estado_pedido") esp).statusCode = 400 ∧
      msg_estado_incorrecto (getJ pedido "estado_pedido") esp =
        "Estado actual del pedido es " ++ sq ++ pyStr (getJ pedido "estado_pedido") ++
          sq ++ ", pero esta Lambda espera " ++ sq ++ esp ++ sq)
    ∧ ((getJ m "tenant_id").truthy = true → (resuelveId m).truthy = true →
      obtener_pedido db (getJ m "tenant_id") (resuelveId m) = some pedido →
      pedido ≠ [] → getJ pedido "estado_pedido" = .str esp →
      validar_pedido_y_estado db (.obj m) esp = .ok (.inl pedido))
    ∧ (∀ tr : Transition, ∀ clock event r, parse_event event = .ok (.obj m) →
      validar_pedido_y_estado db (.obj m) (estado_esperado tr) = .ok (.inr r) →
      (runTransition tr clock event db).2 = db) := by
  refine ⟨?_, ?_, ?_, ?_, ?_, ?_, ?_⟩
  · intro h; simp [resuelveId, h]
  · intro h; simp [resuelveId, h]
  · intro h
    exact ⟨validar_faltan db m esp h, rfl, rfl⟩
  · intro ht ho hl
    exact ⟨validar_no_encontrado db m esp ht ho hl, rfl⟩
  · intro ht ho hl hne hs
    exact ⟨validar_estado_incorrecto db m esp pedido ht ho hl hne hs, rfl, rfl⟩
  · intro ht ho hl hne hs
    exact validar_ok db m esp pedido ht ho hl hne hs
  · intro tr clock event r hp hv
    rw [runTransition_guard_err tr clock event db (.obj m) r hp hv]

/-- Witness for C7: concrete guard rejections and acceptance on the
example world. -/
theorem c7_guardia_witness :
    (validar_pedido_y_estado dbEjemplo
        (.obj [("id", .str "o1")]) "pagado" = .ok (.inr resp_faltan))
    ∧ (validar_pedido_y_estado dbEjemplo
        (.obj [("tenant_id", .str "t1"), ("id", .str "o1")]) "pagado" =
      .ok (.inl [("tenant_id", .str "t1"), ("id", .str "o1"),
        ("estado_pedido", .str "pagado")])) :=
  ⟨((c7_guardia dbEjemplo [("id", .str "o1")] [] "pagado").2.2.1
      (Or.inl (by decide))).1,
   (c7_guardia dbEjemplo [("tenant_id", .str "t1"), ("id", .str "o1")]
      [("tenant_id", .str "t1"), ("id", .str "o1"), ("estado_pedido", .str "pagado")]
      "pagado").2.2.2.2.2.1
      (by decide) (by decide) (by decide) (by decide) (by decide)⟩

/-- Claim C10: the Guard treats empty-string ids like absent ones
(Python falsiness) and answers the 400 missing-fields response; an
existing order lacking `estado_pedido` draws the 400 wrong-state
response (the message showing Python `None`), not an exception; and on
any normalized request (a dict) with any stored contents the Guard
returns a response — it never raises. -/
theorem c10_guardia_total (db : Db) (m pedido : Dict) (esp : String) :
    (getJ m "tenant_id" = .str "" ∨ resuelveId m = .str "" →
      validar_pedido_y_estado db (.obj m) esp = .ok (.inr resp_faltan))
    ∧ (lookupKV m "tenant_id" = none →
      validar_pedido_y_estado db (.obj m) esp = .ok (.inr resp_faltan))
    ∧ ((getJ m "tenant_id").truthy = true → (resuelveId m).truthy = true →
      obtener_pedido db (getJ m "tenant_id") (resuelveId m) = some pedido →
      pedido ≠ [] → lookupKV pedido "estado_pedido" = none →
      validar_pedido_y_estado db (.obj m) esp =
        .ok (.inr (resp_estado_incorrecto .null esp)))
    ∧ (∃ r, validar_pedido_y_estado db (.obj m) esp = .ok r) := by
  refine ⟨?_, ?_, ?_, ?_⟩
  · intro h
    refine validar_faltan db m esp ?_
    rcases h with h | h
    · exact Or.inl (by rw [h]; rfl)
    · exact Or.inr (by rw [h]; rfl)
  · intro h
    refine validar_faltan db m esp (Or.inl ?_)
    rw [getJ, h]; rfl
  · intro ht ho hl hne hs
    have hnull : getJ pedido "estado_pedido" = .null := by rw [getJ, hs]; rfl
    have := validar_estado_incorrecto db m esp pedido ht ho hl hne
      (by rw [hnull]; intro h; cases h)
    rwa [hnull] at this
  · by_cases ht : (getJ m "tenant_id").truthy
    · by_cases ho : (resuelveId m).truthy
      · cases hl : obtener_pedido db (getJ m "tenant_id") (resuelveId m) with
        | none => exact ⟨_, validar_no_encontrado db m esp ht ho hl⟩
        | some p =>
          by_cases hemp : p = []
          · subst hemp
            exact ⟨_, validar_pedido_vacio db m esp ht ho hl⟩
          · by_cases hs : getJ p "estado_pedido" = Json.str esp
            · exact ⟨_, validar_ok db m esp p ht ho hl hemp hs⟩
            · exact ⟨_, validar_estado_incorrecto db m esp p ht ho hl hemp hs⟩
      · exact ⟨_, validar_faltan db m esp (Or.inr (by simpa using ho))⟩
    · exact ⟨_, validar_faltan db m esp (Or.inl (by simpa using ht))⟩

/-- Witness for C10: empty-string tenant and a stored order without
`estado_pedido` on a concrete world. -/
theorem c10_guardia_total_witness :
    (validar_pedido_y_estado dbEjemplo
        (.obj [("tenant_id", .str ""), ("id", .str "o1")]) "pagado" =
      .ok (.inr resp_faltan))
    ∧ (validar_pedido_y_estado
        ⟨[((.str "t2", .str "o2"), [("tenant_id", .str "t2"), ("id", .str "o2")])],
          [], [], [], []⟩
        (.obj [("tenant_id", .str "t2"), ("id", .str "o2")]) "pagado" =
      .ok (.inr (resp_estado_incorrecto .null "pagado"))) :=
  ⟨(c10_guardia_total dbEjemplo [("tenant_id", .str ""), ("id", .str "o1")]
      [] "pagado").1 (Or.inl (by decide)),
   (c10_guardia_total
      ⟨[((.str "t2", .str "o2"), [("tenant_id", .str "t2"), ("id", .str "o2")])],
        [], [], [], []⟩
      [("tenant_id", .str "t2"), ("id", .str "o2")]
      [("tenant_id", .str "t2"), ("id", .str "o2")] "pagado").2.2.1
      (by decide) (by decide) (by decide) (by decide) (by decide)⟩

-- ---------------------------------------------------------------- --
-- Normalizer lemmas.
-- ---------------------------------------------------------------- --

/-- Claim C9: when an envelope carries a `taskToken` together with a
dict-valued `input` and also a string `body`, the orchestrator-resume
shape wins: the body is ignored (any body yields the same result) and
the top-level `taskToken` overwrites a `taskToken` key already inside
`input`. -/
theorem c9_precedencia (event : Dict) (tok : Json) (inp : Dict) (bodyStr : String)
    (htok : lookupKV event "taskToken" = some tok)
    (hinp : lookupKV event "input" = some (.obj inp))
    (_hb : lookupKV event "body" = some (.str bodyStr)) :
    parse_event event = .ok (.obj (setKV inp "taskToken" tok))
    ∧ lookupKV (setKV inp "taskToken" tok) "taskToken" = some tok
    ∧ (∀ q, q ≠ "taskToken" → lookupKV (setKV inp "taskToken" tok) q = lookupKV inp q) := by
  refine ⟨?_, ?_, ?_⟩
  · simp [parse_event, htok, hinp, isObj, asObj]
  · simp [lookupKV_setKV]
  · intro q hq
    rw [lookupKV_setKV, if_neg (fun h => hq h.symm)]

/-- Witness for C9: a concrete envelope with all three fields. -/
theorem c9_precedencia_witness :
    parse_event
        [("taskToken", .str "T"),
         ("input", .obj [("a", .num 1), ("taskToken", .str "old")]),
         ("body", .str "\x7b\"x\":1\x7d")] =
      .ok (.obj [("a", .num 1), ("taskToken", .str "T")]) :=
  (c9_precedencia
    [("taskToken", .str "T"),
     ("input", .obj [("a", .num 1), ("taskToken", .str "old")]),
     ("body", .str "\x7b\"x\":1\x7d")]
    (.str "T") [("a", .num 1), ("taskToken", .str "old")] "\x7b\"x\":1\x7d"
    (by decide) (by decide) (by decide)).1

/-- A field of the updated order outside the touched set keeps its
value. -/
theorem lookupKV_applySets_token_sets (it : Dict) (est campo : String) (tok : Json)
    (k : String) (h1 : k ≠ "estado_pedido") (h2 : k ≠ campo) :
    lookupKV (applySets it (token_sets est campo tok)) k = lookupKV it k := by
  unfold token_sets
  by_cases h : tok.truthy <;>
    simp [h, applySets, lookupKV_setKV, Ne.symm h1, Ne.symm h2]

/-- Claim C6: stage records are created and closed with the documented
contents.  The source strings are Spanish: "cocinando" is the
in-progress value and "terminado" the done value of COCINA and
DESPACHADOR; DELIVERY uses "en camino" / "cumplido"; the sentinels are
"no_asignado" (unassigned worker or driver) and "no_definido"
(undefined origin or destination).  A newly opened record has
`hora_comienzo` = now and `hora_fin` = null, missing optional request
fields fall back to the sentinel and the call still succeeds with
200. -/
theorem c6_registros_de_etapa (clock : Nat → String) (evm pedido : Dict)
    (db : Db) (t o : Json)
    (hkt : lookupKV pedido "tenant_id" = some t)
    (hko : lookupKV pedido "id" = some o) :
    (lookupTab (pagado_a_cocina_core clock (.obj evm) pedido db).2.cocina o =
        some (item_cocina o (getJ evm "id_empleado") (clock 0))
      ∧ statusOf (pagado_a_cocina_core clock (.obj evm) pedido db) = some 200)
    ∧ (∀ emp : Json, ∀ hora : String,
      getJ (item_cocina o emp hora) "hora_comienzo" = .str hora
      ∧ getJ (item_cocina o emp hora) "hora_fin" = .null
      ∧ getJ (item_cocina o emp hora) "status" = .str "cocinando"
      ∧ (emp = .null → getJ (item_cocina o emp hora) "id_empleado" = .str "no_asignado")
      ∧ getJ (item_despachador o emp hora) "hora_comienzo" = .str hora
      ∧ getJ (item_despachador o emp hora) "hora_fin" = .null
      ∧ getJ (item_despachador o emp hora) "status" = .str "cocinando"
      ∧ (emp = .null →
        getJ (item_despachador o emp hora) "id_empleado" = .str "no_asignado"))
    ∧ (∀ it : Dict, lookupTab db.cocina o = some it →
      lookupTab (cocina_a_empaquetamiento_core clock (.obj evm) pedido db).2.cocina o =
        some (applySets it [("hora_fin", .str (clock 0)), ("status", .str "terminado")])
      ∧ getJ (applySets it [("hora_fin", .str (clock 0)), ("status", .str "terminado")])
          "status" = .str "terminado"
      ∧ getJ (applySets it [("hora_fin", .str (clock 0)), ("status", .str "terminado")])
          "hora_fin" = .str (clock 0))
    ∧ (∀ rep idr org dst : Json,
      getJ (item_delivery o t rep idr org dst) "status" = .str "en camino"
      ∧ (rep = .null → getJ (item_delivery o t rep idr org dst) "repartidor" =
          .str "no_asignado")
      ∧ (idr = .null → getJ (item_delivery o t rep idr org dst) "id_repartidor" =
          .str "no_asignado")
      ∧ (org = .null → getJ (item_delivery o t rep idr org dst) "origen" =
          .str "no_definido")
      ∧ (dst = .null → getJ (item_delivery o t rep idr org dst) "destino" =
          .str "no_definido"))
    ∧ (lookupTab (empaquetamiento_a_delivery_core clock (.obj evm) pedido db).2.delivery
          o =
        some (item_delivery o t (getJ evm "repartidor") (getJ evm "id_repartidor")
          (getJ evm "origen") (getJ evm "destino"))
      ∧ statusOf (empaquetamiento_a_delivery_core clock (.obj evm) pedido db) = some 200)
    ∧ (∀ it : Dict, lookupTab db.delivery o = some it →
      lookupTab (delivery_a_entregado_core (.obj evm) pedido db).2.delivery o =
        some (applySets it [("status", .str "cumplido")])
      ∧ getJ (applySets it [("status", .str "cumplido")]) "status" = .str "cumplido"
      ∧ statusOf (delivery_a_entregado_core (.obj evm) pedido db) = some 200) := by
  refine ⟨⟨?_, ?_⟩, ?_, ?_, ?_, ⟨?_, ?_⟩, ?_⟩
  · rw [pagado_a_cocina_core_eq clock evm pedido db t o hkt hko]
    simp
  · rw [pagado_a_cocina_core_eq clock evm pedido db t o hkt hko]
    rfl
  · intro emp hora
    refine ⟨rfl, rfl, rfl, fun he => ?_, rfl, rfl, rfl, fun he => ?_⟩ <;>
      simp [item_cocina, item_despachador, getJ, lookupKV, he, Json.truthy]
  · intro it hit
    rw [cocina_a_empaquetamiento_core_eq clock evm pedido db t o hkt hko]
    refine ⟨?_, ?_, ?_⟩
    · simp [lookupTab_updateTab, hit, applyRemoves]
    · simp [applySets, getJ, lookupKV_setKV]
    · simp [applySets, getJ, lookupKV_setKV]
  · intro rep idr org dst
    refine ⟨rfl, fun h => ?_, fun h => ?_, fun h => ?_, fun h => ?_⟩ <;>
      simp [item_delivery, getJ, lookupKV, h, Json.truthy]
  · rw [empaquetamiento_a_delivery_core_eq clock evm pedido db t o hkt hko]
    simp
  · rw [empaquetamiento_a_delivery_core_eq clock evm pedido db t o hkt hko]
    rfl
  · intro it hit
    rw [delivery_a_entregado_core_eq (.obj evm) pedido db t o hkt hko]
    refine ⟨?_, ?_, rfl⟩
    · simp [lookupTab_updateTab, hit, applyRemoves]
    · simp [applySets, getJ, lookupKV_setKV]

/-- Witness for C6: the kitchen record written for the example order
with no worker supplied. -/
theorem c6_registros_de_etapa_witness :
    lookupTab (pagado_a_cocina_core (fun _ => "T0")
        (.obj [("tenant_id", .str "t1"), ("id_pedido", .str "o1")])
        [("tenant_id", .str "t1"), ("id", .str "o1"), ("estado_pedido", .str "pagado")]
        dbEjemplo).2.cocina (.str "o1") =
      some (item_cocina (.str "o1") .null "T0") ∧
    getJ (item_cocina (.str "o1") .null "T0") "id_empleado" = .str "no_asignado" ∧
    getJ (item_cocina (.str "o1") .null "T0") "hora_fin" = .null :=
  ⟨(c6_registros_de_etapa (fun _ => "T0")
      [("tenant_id", .str "t1"), ("id_pedido", .str "o1")]
      [("tenant_id", .str "t1"), ("id", .str "o1"), ("estado_pedido", .str "pagado")]
      dbEjemplo (.str "t1") (.str "o1") (by decide) (by decide)).1.1,
   ((c6_registros_de_etapa (fun _ => "T0")
      [("tenant_id", .str "t1"), ("id_pedido", .str "o1")]
      [("tenant_id", .str "t1"), ("id", .str "o1"), ("estado_pedido", .str "pagado")]
      dbEjemplo (.str "t1") (.str "o1") (by decide) (by decide)).2.1 .null "T0").2.2.2.1
      rfl,
   ((c6_registros_de_etapa (fun _ => "T0")
      [("tenant_id", .str "t1"), ("id_pedido", .str "o1")]
      [("tenant_id", .str "t1"), ("id", .str "o1"), ("estado_pedido", .str "pagado")]
      dbEjemplo (.str "t1") (.str "o1") (by decide) (by decide)).2.1 .null "T0").2.1⟩

/-- Claim C8: on success `pagado_a_cocina` writes only the COCINA table
and the order entry — DESPACHADOR, DELIVERY, the signal log, every other
COCINA key, every other order, and every order field other than
`estado_pedido` (and `task_token_cocina` when a token came) keep their
values, and without a token the token field too; `delivery_a_entregado`
writes only DELIVERY.status and the order's `estado_pedido`, touching
neither COCINA nor DESPACHADOR. -/
theorem c8_efectos_marco (clock : Nat → String) (evm pedido : Dict)
    (db : Db) (t o : Json)
    (hkt : lookupKV pedido "tenant_id" = some t)
    (hko : lookupKV pedido "id" = some o) :
    ((pagado_a_cocina_core clock (.obj evm) pedido db).2.despachador = db.despachador
    ∧ (pagado_a_cocina_core clock (.obj evm) pedido db).2.delivery = db.delivery
    ∧ (pagado_a_cocina_core clock (.obj evm) pedido db).2.enviados = db.enviados
    ∧ (∀ q : Json, q ≠ o →
        lookupTab (pagado_a_cocina_core clock (.obj evm) pedido db).2.cocina q =
          lookupTab db.cocina q)
    ∧ (∀ p : Json × Json, p ≠ (t, o) →
        lookupTab (pagado_a_cocina_core clock (.obj evm) pedido db).2.pedidos p =
          lookupTab db.pedidos p)
    ∧ (∀ it : Dict, lookupTab db.pedidos (t, o) = some it →
        ∀ k : String, k ≠ "estado_pedido" → k ≠ "task_token_cocina" →
        (lookupTab (pagado_a_cocina_core clock (.obj evm) pedido db).2.pedidos
            (t, o)).map (fun it2 => lookupKV it2 k) = some (lookupKV it k))
    ∧ (∀ it : Dict, lookupTab db.pedidos (t, o) = some it →
        (getJ evm "taskToken").truthy = false →
        (lookupTab (pagado_a_cocina_core clock (.obj evm) pedido db).2.pedidos
            (t, o)).map (fun it2 => lookupKV it2 "task_token_cocina") =
          some (lookupKV it "task_token_cocina")))
    ∧ ((delivery_a_entregado_core (.obj evm) pedido db).2.cocina = db.cocina
    ∧ (delivery_a_entregado_core (.obj evm) pedido db).2.despachador = db.despachador
    ∧ (delivery_a_entregado_core (.obj evm) pedido db).2.enviados = db.enviados
    ∧ (∀ q : Json, q ≠ o →
        lookupTab (delivery_a_entregado_core (.obj evm) pedido db).2.delivery q =
          lookupTab db.delivery q)
    ∧ (∀ p : Json × Json, p ≠ (t, o) →
        lookupTab (delivery_a_entregado_core (.obj evm) pedido db).2.pedidos p =
          lookupTab db.pedidos p)
    ∧ (∀ it : Dict, lookupTab db.pedidos (t, o) = some it →
        ∀ k : String, k ≠ "estado_pedido" →
        (lookupTab (delivery_a_entregado_core (.obj evm) pedido db).2.pedidos
            (t, o)).map (fun it2 => lookupKV it2 k) = some (lookupKV it k))
    ∧ (∀ it : Dict, lookupTab db.delivery o = some it →
        ∀ k : String, k ≠ "status" →
        (lookupTab (delivery_a_entregado_core (.obj evm) pedido db).2.delivery
            o).map (fun it2 => lookupKV it2 k) = some (lookupKV it k))) := by
  rw [pagado_a_cocina_core_eq clock evm pedido db t o hkt hko,
    delivery_a_entregado_core_eq (.obj evm) pedido db t o hkt hko]
  refine ⟨⟨rfl, rfl, rfl, ?_, ?_, ?_, ?_⟩, ⟨rfl, rfl, rfl, ?_, ?_, ?_, ?_⟩⟩
  · intro q hq
    rw [lookupTab_putTab, if_neg (fun h => hq h.symm)]
  · intro p hp
    rw [lookupTab_updateTab, if_neg (fun h => hp h.symm)]
  · intro it hit k h1 h2
    rw [lookupTab_updateTab, if_pos rfl, hit]
    simp only [Option.getD_some, applyRemoves, Option.map]
    rw [lookupKV_applySets_token_sets it "cocina" "task_token_cocina"
      (getJ evm "taskToken") k h1 h2]
  · intro it hit htok
    rw [lookupTab_updateTab, if_pos rfl, hit]
    simp only [Option.getD_some, applyRemoves, Option.map]
    rw [show token_sets "cocina" "task_token_cocina" (getJ evm "taskToken") =
        [("estado_pedido", .str "cocina")] by simp [token_sets, htok]]
    simp [applySets, lookupKV_setKV]
  · intro q hq
    rw [lookupTab_updateTab, if_neg (fun h => hq h.symm)]
  · intro p hp
    rw [lookupTab_updateTab, if_neg (fun h => hp h.symm)]
  · intro it hit k h1
    rw [lookupTab_updateTab, if_pos rfl, hit]
    simp only [Option.getD_some, applyRemoves, Option.map]
    simp [applySets, lookupKV_setKV, Ne.symm h1]
  · intro it hit k h1
    rw [lookupTab_updateTab, if_pos rfl, hit]
    simp only [Option.getD_some, applyRemoves, Option.map]
    simp [applySets, lookupKV_setKV, Ne.symm h1]

/-- Witness for C8: the example order advanced to the kitchen leaves
DESPACHADOR and DELIVERY untouched and keeps its `tenant_id` field. -/
theorem c8_efectos_marco_witness :
    (pagado_a_cocina_core (fun _ => "T0")
        (.obj [("tenant_id", .str "t1"), ("id_pedido", .str "o1")])
        [("tenant_id", .str "t1"), ("id", .str "o1"), ("estado_pedido", .str "pagado")]
        dbEjemplo).2.despachador = dbEjemplo.despachador ∧
    (lookupTab (pagado_a_cocina_core (fun _ => "T0")
        (.obj [("tenant_id", .str "t1"), ("id_pedido", .str "o1")])
        [("tenant_id", .str "t1"), ("id", .str "o1"), ("estado_pedido", .str "pagado")]
        dbEjemplo).2.pedidos (.str "t1", .str "o1")).map
      (fun it2 => lookupKV it2 "tenant_id") = some (some (.str "t1")) :=
  ⟨(c8_efectos_marco (fun _ => "T0")
      [("tenant_id", .str "t1"), ("id_pedido", .str "o1")]
      [("tenant_id", .str "t1"), ("id", .str "o1"), ("estado_pedido", .str "pagado")]
      dbEjemplo (.str "t1") (.str "o1") (by decide) (by decide)).1.1,
   (c8_efectos_marco (fun _ => "T0")
      [("tenant_id", .str "t1"), ("id_pedido", .str "o1")]
      [("tenant_id", .str "t1"), ("id", .str "o1"), ("estado_pedido", .str "pagado")]
      dbEjemplo (.str "t1") (.str "o1") (by decide) (by decide)).1.2.2.2.2.2.1
      [("tenant_id", .str "t1"), ("id", .str "o1"), ("estado_pedido", .str "pagado")]
      (by decide) "tenant_id" (by decide) (by decide)⟩

-- ---------------------------------------------------------------- --
-- `confirmar_paso` lemmas.
-- ---------------------------------------------------------------- --

/-- The `mensaje` of a handler result, `none` when it raised. -/
def mensajeDe (r : Except PyErr Resp × Db) : Option Json :=
  match r.1 with
  | .ok resp => some (getJ resp.body "mensaje")
  | .error _ => none

theorem mapa_paso_get_truthy (paso : Json) (campo : String)
    (h : mapa_paso_get paso = some campo) : paso.truthy = true := by
  unfold mapa_paso_get at h
  split_ifs at h with h1 h2 h3
  · rw [h1]; rfl
  · rw [h2]; rfl
  · rw [h3]; rfl

theorem mapa_paso_get_of_py (paso : Json) (r : Option String)
    (h : mapa_paso_get_py paso = .ok r) : mapa_paso_get paso = r := by
  cases paso <;> simp [mapa_paso_get_py] at h <;> exact h

theorem mapa_paso_get_py_of_some (paso : Json) (campo : String)
    (h : mapa_paso_get paso = some campo) :
    mapa_paso_get_py paso = .ok (some campo) := by
  cases paso with
  | arr xs => exact absurd h (by simp [mapa_paso_get])
  | obj kvs => exact absurd h (by simp [mapa_paso_get])
  | null => simp [mapa_paso_get_py, h]
  | bool b => simp [mapa_paso_get_py, h]
  | num n => simp [mapa_paso_get_py, h]
  | fnum z l => simp [mapa_paso_get_py, h]
  | str st => simp [mapa_paso_get_py, h]

/-- Counterexample to C4: with an existing order and the empty string
as `paso` — a value that is not one of the three recognized ones — the
call answers 400 with the generic missing-fields message, not the
message listing the three valid values. -/
theorem c4_contraejemplo :
    mensajeDe (confirmar_paso
        [("tenant_id", .str "t1"), ("id_pedido", .str "o1"), ("paso", .str "")]
        dbEjemplo) = some (.str "Faltan tenant_id, id_pedido o paso")
    ∧ Json.str "Faltan tenant_id, id_pedido o paso" ≠
        .str (msg_paso_no_soportado (.str ""))
    ∧ (confirmar_paso
        [("tenant_id", .str "t1"), ("id_pedido", .str "o1"), ("paso", .str "")]
        dbEjemplo).2 = dbEjemplo := by
  exact ⟨rfl, by decide, rfl⟩

/-- Claim C4 (amended): for a request naming an existing order, a
truthy hashable `paso` (a string, number or boolean) outside the three
recognized values draws 400 with the message listing the three valid
values; a falsy `paso`, e.g. the empty string, draws the generic
missing-fields 400 instead; a truthy unhashable `paso` (a JSON array
or object) makes `mapa_paso_token.get` raise an uncaught `TypeError`;
a recognized `paso` whose token field is absent (or empty) on the
order draws 400; with a non-empty token present the handler signals
the orchestrator exactly once with that token and then removes the
field from the order. -/
theorem c4_confirmar (event : Dict) (db : Db) (m pedido : Dict) (t o : Json)
    (hp : parse_event event = .ok (.obj m))
    (ht : getJ m "tenant_id" = t) (htt : t.truthy = true)
    (ho : resuelveId m = o) (hot : o.truthy = true)
    (hl : lookupTab db.pedidos (t, o) = some pedido) (hne : pedido ≠ []) :
    (mapa_paso_get (.str "cocina-lista") = some "task_token_cocina"
      ∧ mapa_paso_get (.str "empaquetamiento-listo") = some "task_token_empaquetamiento"
      ∧ mapa_paso_get (.str "delivery-entregado") = some "task_token_delivery"
      ∧ (∀ xs : List Json, mapa_paso_get_py (.arr xs) = .error .typeError)
      ∧ (∀ kvs : Dict, mapa_paso_get_py (.obj kvs) = .error .typeError))
    ∧ (∀ paso : Json, getJ m "paso" = paso → paso.truthy = true →
        mapa_paso_get_py paso = .ok none →
        (confirmar_paso event db).1 =
          .ok ⟨400, [("mensaje", .str (msg_paso_no_soportado paso))]⟩
        ∧ (confirmar_paso event db).2 = db
        ∧ msg_paso_no_soportado paso =
            "Paso " ++ sq ++ pyStr paso ++ sq ++ " no soportado. Usa uno de: [" ++
              sq ++ "cocina-lista" ++ sq ++ ", " ++ sq ++ "empaquetamiento-listo" ++
              sq ++ ", " ++ sq ++ "delivery-entregado" ++ sq ++ "]")
    ∧ ((getJ m "paso").truthy = false →
        (confirmar_paso event db).1 =
          .ok ⟨400, [("mensaje", .str "Faltan tenant_id, id_pedido o paso")]⟩
        ∧ (confirmar_paso event db).2 = db)
    ∧ (∀ paso : Json, ∀ campo : String, getJ m "paso" = paso →
        mapa_paso_get paso = some campo → (getJ pedido campo).truthy = false →
        (confirmar_paso event db).1 =
          .ok ⟨400, [("mensaje", .str (msg_token_no_encontrado campo))]⟩
        ∧ (confirmar_paso event db).2 = db)
    ∧ (∀ paso : Json, ∀ campo : String, getJ m "paso" = paso →
        mapa_paso_get paso = some campo → (getJ pedido campo).truthy = true →
        statusOf (confirmar_paso event db) = some 200
        ∧ (confirmar_paso event db).2.enviados =
            db.enviados ++ [(getJ pedido campo,
              [("mensaje", .str ("Confirmación de paso " ++ sq ++ pyStr paso ++ sq)),
               ("tenant_id", t), ("id_pedido", o)])]
        ∧ (lookupTab (confirmar_paso event db).2.pedidos (t, o)).map
            (fun it2 => lookupKV it2 campo) = some none)
    ∧ (∀ paso : Json, getJ m "paso" = paso → paso.truthy = true →
        mapa_paso_get_py paso = .error .typeError →
        (confirmar_paso event db).1 = .error .typeError
        ∧ (confirmar_paso event db).2 = db) := by
  have hred : ∀ pasoJ : Json, getJ m "paso" = pasoJ → pasoJ.truthy = true →
      confirmar_paso event db =
        (match mapa_paso_get_py pasoJ with
         | .error e => ((.error e : Except PyErr Resp), db)
         | .ok none =>
           (.ok ⟨400, [("mensaje", .str (msg_paso_no_soportado pasoJ))]⟩, db)
         | .ok (some nombre_campo) =>
           if !(getJ pedido nombre_campo).truthy then
             (.ok ⟨400, [("mensaje", .str (msg_token_no_encontrado nombre_campo))]⟩, db)
           else
             (.ok ⟨200,
               [("mensaje", .str ("Confirmación " ++ sq ++ pyStr pasoJ ++ sq ++
                  " enviada a Step Functions")),
                ("tenant_id", t), ("id_pedido", o)]⟩,
              { db with
                 enviados := db.enviados ++ [(getJ pedido nombre_campo,
                   [("mensaje", .str ("Confirmación de paso " ++ sq ++ pyStr pasoJ ++ sq)),
                    ("tenant_id", t), ("id_pedido", o)])],
                 pedidos := updateTab db.pedidos (t, o)
                   [("tenant_id", t), ("id", o)] [] [nombre_campo] })) := by
    intro pasoJ hpj hpt
    simp only [confirmar_paso, hp, pyGet_obj, pyGetIdPedido_obj, ht, ho, hpj]
    rw [show (!t.truthy || !o.truthy || !pasoJ.truthy) = false by
      simp [htt, hot, hpt]]
    simp only [Bool.false_eq_true, if_false]
    simp only [show obtener_pedido db t o = some pedido from hl,
      show pedido.isEmpty = false by simp [List.isEmpty_iff, hne],
      Bool.false_eq_true, if_false]
  have hred3 : ∀ pasoJ : Json, ∀ campo : String, getJ m "paso" = pasoJ →
      mapa_paso_get pasoJ = some campo →
      confirmar_paso event db =
        (if (!(getJ pedido campo).truthy) = true then
           (.ok ⟨400, [("mensaje", .str (msg_token_no_encontrado campo))]⟩, db)
         else
           (.ok ⟨200,
             [("mensaje", .str ("Confirmación " ++ sq ++ pyStr pasoJ ++ sq ++
                " enviada a Step Functions")),
              ("tenant_id", t), ("id_pedido", o)]⟩,
            { db with
               enviados := db.enviados ++ [(getJ pedido campo,
                 [("mensaje", .str ("Confirmación de paso " ++ sq ++ pyStr pasoJ ++ sq)),
                  ("tenant_id", t), ("id_pedido", o)])],
               pedidos := updateTab db.pedidos (t, o)
                 [("tenant_id", t), ("id", o)] [] [campo] })) := by
    intro pasoJ campo hpj hm
    rw [hred pasoJ hpj (mapa_paso_get_truthy pasoJ campo hm),
      mapa_paso_get_py_of_some pasoJ campo hm]
  refine ⟨⟨rfl, rfl, rfl, fun xs => rfl, fun kvs => rfl⟩, ?_, ?_, ?_, ?_, ?_⟩
  · intro paso hpj hpt hmap
    rw [hred paso hpj hpt, hmap]
    exact ⟨rfl, rfl, rfl⟩
  · intro hpf
    simp only [confirmar_paso, hp, pyGet_obj, pyGetIdPedido_obj, ht, ho]
    rw [show (!t.truthy || !o.truthy || !(getJ m "paso").truthy) = true by
      simp [hpf]]
    exact ⟨rfl, rfl⟩
  · intro paso campo hpj hmap htok
    rw [hred3 paso campo hpj hmap,
      if_pos (by simp [htok] : (!(getJ pedido campo).truthy) = true)]
    exact ⟨rfl, rfl⟩
  · intro paso campo hpj hmap htok
    rw [hred3 paso campo hpj hmap,
      if_neg (by simp [htok] : ¬((!(getJ pedido campo).truthy) = true))]
    refine ⟨rfl, rfl, ?_⟩
    rw [lookupTab_updateTab, if_pos rfl, hl]
    simp [applySets, applyRemoves, Option.map]
  · intro paso hpj hpt herr
    rw [hred paso hpj hpt, herr]
    exact ⟨rfl, rfl⟩

-- ---------------------------------------------------------------- --
-- Token-invariant lemmas.
-- ---------------------------------------------------------------- --

theorem lookupTab_mem {κ : Type} [DecidableEq κ] (tbl : List (κ × Dict)) (key : κ)
    (it : Dict) (h : lookupTab tbl key = some it) : (key, it) ∈ tbl := by
  induction tbl with
  | nil => cases h
  | cons p rest ih =>
    obtain ⟨a, b⟩ := p
    by_cases hak : a = key
    · subst hak
      rw [lookupTab, if_pos rfl] at h
      cases h
      exact List.mem_cons_self _ _
    · rw [lookupTab, if_neg hak] at h
      exact List.mem_cons_of_mem _ (ih h)

theorem mem_putTab {κ : Type} [DecidableEq κ] (tbl : List (κ × Dict)) (key : κ)
    (it : Dict) : ∀ e ∈ putTab tbl key it, e = (key, it) ∨ e ∈ tbl := by
  induction tbl with
  | nil =>
    intro e he
    simp [putTab] at he
    exact Or.inl he
  | cons p rest ih =>
    obtain ⟨a, b⟩ := p
    intro e he
    by_cases hak : a = key
    · subst hak
      rw [putTab, if_pos rfl] at he
      rcases List.mem_cons.mp he with h | h
      · exact Or.inl h
      · exact Or.inr (List.mem_cons_of_mem _ h)
    · rw [putTab, if_neg hak] at he
      rcases List.mem_cons.mp he with h | h
      · exact Or.inr (h ▸ List.mem_cons_self _ _)
      · rcases ih e h with h' | h'
        · exact Or.inl h'
        · exact Or.inr (List.mem_cons_of_mem _ h')

theorem mem_updateTab {κ : Type} [DecidableEq κ] (tbl : List (κ × Dict)) (key : κ)
    (attrs sets : Dict) (removes : List String) :
    ∀ e ∈ updateTab tbl key attrs sets removes,
      e = (key, applyRemoves (applySets ((lookupTab tbl key).getD attrs) sets) removes)
      ∨ e ∈ tbl := by
  intro e he
  unfold updateTab at he
  cases h : lookupTab tbl key with
  | none =>
    rw [h] at he
    simpa [h] using mem_putTab tbl key _ e he
  | some it =>
    rw [h] at he
    simpa [h] using mem_putTab tbl key _ e he

/-- The guard only errors on non-dict normalized requests. -/
theorem validar_nonobj (db : Db) (ev : Json) (esp : String)
    (h : ∀ m : Dict, ev ≠ .obj m) :
    validar_pedido_y_estado db ev esp = .error .attributeError := by
  cases ev with
  | obj m => exact absurd rfl (h m)
  | null => rfl
  | bool b => rfl
  | num n => rfl
  | fnum z l => rfl
  | str s => rfl
  | arr xs => rfl

/-- Inversion of a successful guard run. -/
theorem validar_ok_inv (db : Db) (m : Dict) (esp : String) (pedido : Dict)
    (h : validar_pedido_y_estado db (.obj m) esp = .ok (.inl pedido)) :
    obtener_pedido db (getJ m "tenant_id") (resuelveId m) = some pedido ∧
    getJ pedido "estado_pedido" = .str esp := by
  unfold validar_pedido_y_estado at h
  simp only [pyGet_obj, pyGetIdPedido_obj] at h
  by_cases h1 : (!(getJ m "tenant_id").truthy || !(resuelveId m).truthy) = true
  · rw [if_pos h1] at h; cases h
  · rw [if_neg h1] at h
    cases hl : obtener_pedido db (getJ m "tenant_id") (resuelveId m) with
    | none => simp only [hl] at h; cases h
    | some p =>
      simp only [hl] at h
      by_cases hemp : p.isEmpty = true
      · rw [if_pos hemp] at h; cases h
      · rw [if_neg hemp] at h
        by_cases hs : getJ p "estado_pedido" ≠ Json.str esp
        · rw [if_pos hs] at h; cases h
        · rw [if_neg hs] at h
          cases h
          push_neg at hs
          exact ⟨rfl, hs⟩

theorem itemInv_of_sinTokens (it : Dict) (h : sinTokens it = true) :
    itemInv it = true := by
  unfold sinTokens at h
  simp only [Bool.and_eq_true, Option.isNone_iff_eq_none] at h
  obtain ⟨⟨h1, h2⟩, h3⟩ := h
  simp [itemInv, h1, h2, h3]

/-- Writing the next state plus (at most) the matching token into a
token-free record keeps the invariant. -/
theorem itemInv_token_sets (it : Dict) (tok : Json) (campo est : String)
    (hsin : sinTokens it = true)
    (hce : (campo = "task_token_cocina" ∧ est = "cocina") ∨
           (campo = "task_token_empaquetamiento" ∧ est = "empaquetamiento") ∨
           (campo = "task_token_delivery" ∧ est = "delivery")) :
    itemInv (applySets it (token_sets est campo tok)) = true := by
  unfold sinTokens at hsin
  simp only [Bool.and_eq_true, Option.isNone_iff_eq_none] at hsin
  obtain ⟨⟨h1, h2⟩, h3⟩ := hsin
  rcases hce with ⟨hc, he⟩ | ⟨hc, he⟩ | ⟨hc, he⟩ <;> subst hc <;> subst he <;>
    unfold itemInv token_sets <;>
    by_cases h : tok.truthy <;>
      simp [h, applySets, getJ, lookupKV_setKV, h1, h2, h3]

/-- Writing only the terminal state into a token-free record keeps the
invariant. -/
theorem itemInv_solo_estado (it : Dict) (est : String) (hsin : sinTokens it = true) :
    itemInv (applySets it [("estado_pedido", Json.str est)]) = true := by
  unfold sinTokens at hsin
  simp only [Bool.and_eq_true, Option.isNone_iff_eq_none] at hsin
  obtain ⟨⟨h1, h2⟩, h3⟩ := hsin
  simp [itemInv, applySets, getJ, lookupKV_setKV, h1, h2, h3]

/-- Removing a token field keeps the invariant (fewer tokens, same
state). -/
theorem itemInv_removeKV_token (it : Dict) (campo : String)
    (hc : campo = "task_token_cocina" ∨ campo = "task_token_empaquetamiento" ∨
      campo = "task_token_delivery")
    (h : itemInv it = true) : itemInv (removeKV it campo) = true := by
  rcases hc with hc | hc | hc <;> subst hc <;>
    (simp [itemInv, getJ, lookupKV_removeKV] at h ⊢; tauto)

theorem mapa_paso_get_mem (paso : Json) (campo : String)
    (h : mapa_paso_get paso = some campo) :
    campo = "task_token_cocina" ∨ campo = "task_token_empaquetamiento" ∨
      campo = "task_token_delivery" := by
  unfold mapa_paso_get at h
  split_ifs at h <;> cases h <;> simp

/-- A transition run either leaves the world unchanged or, after a
successful guard, replaces the order entry under the key attributes of
the guarded record with the next state plus (possibly) the matching
token. -/
theorem runTransition_result (tr : Transition) (clock : Nat → String)
    (event : Dict) (db : Db) :
    (runTransition tr clock event db).2 = db ∨
    ∃ m pedido : Dict, ∃ t o tok : Json,
      parse_event event = .ok (.obj m) ∧
      validar_pedido_y_estado db (.obj m) (estado_esperado tr) = .ok (.inl pedido) ∧
      lookupKV pedido "tenant_id" = some t ∧
      lookupKV pedido "id" = some o ∧
      (runTransition tr clock event db).2.pedidos =
        updateTab db.pedidos (t, o) [("tenant_id", t), ("id", o)]
          (token_sets (estado_siguiente tr) (campoToken tr) tok) [] ∧
      ((campoToken tr = "task_token_cocina" ∧ estado_siguiente tr = "cocina") ∨
       (campoToken tr = "task_token_empaquetamiento" ∧
         estado_siguiente tr = "empaquetamiento") ∨
       (campoToken tr = "task_token_delivery" ∧ estado_siguiente tr = "delivery") ∨
       tok = Json.null) := by
  cases hpe : parse_event event with
  | error e =>
    left
    cases tr <;>
      simp only [runTransition, pagado_a_cocina, cocina_a_empaquetamiento,
        empaquetamiento_a_delivery, delivery_a_entregado, hpe]
  | ok ev =>
    have nonobjCase : ∀ j : Json, (∀ mm : Dict, j ≠ .obj mm) →
        (match validar_pedido_y_estado db j (estado_esperado tr) with
          | .error e => ((.error e : Except PyErr Resp), db)
          | .ok (.inr err) => (.ok err, db)
          | .ok (.inl pedido) => runTransitionCore tr clock j pedido db).2 = db := by
      intro j hj
      rw [validar_nonobj db j _ hj]
    cases ev with
    | null =>
      left
      cases tr <;>
        simpa only [runTransition, runTransitionCore, pagado_a_cocina,
          cocina_a_empaquetamiento, empaquetamiento_a_delivery,
          delivery_a_entregado, hpe] using nonobjCase .null (by intro mm h; cases h)
    | bool b =>
      left
      cases tr <;>
        simpa only [runTransition, runTransitionCore, pagado_a_cocina,
          cocina_a_empaquetamiento, empaquetamiento_a_delivery,
          delivery_a_entregado, hpe] using nonobjCase (.bool b) (by intro mm h; cases h)
    | num n =>
      left
      cases tr <;>
        simpa only [runTransition, runTransitionCore, pagado_a_cocina,
          cocina_a_empaquetamiento, empaquetamiento_a_delivery,
          delivery_a_entregado, hpe] using nonobjCase (.num n) (by intro mm h; cases h)
    | fnum z l =>
      left
      cases tr <;>
        simpa only [runTransition, runTransitionCore, pagado_a_cocina,
          cocina_a_empaquetamiento, empaquetamiento_a_delivery,
          delivery_a_entregado, hpe] using nonobjCase (.fnum z l) (by intro mm h; cases h)
    | str st =>
      left
      cases tr <;>
        simpa only [runTransition, runTransitionCore, pagado_a_cocina,
          cocina_a_empaquetamiento, empaquetamiento_a_delivery,
          delivery_a_entregado, hpe] using nonobjCase (.str st) (by intro mm h; cases h)
    | arr xs =>
      left
      cases tr <;>
        simpa only [runTransition, runTransitionCore, pagado_a_cocina,
          cocina_a_empaquetamiento, empaquetamiento_a_delivery,
          delivery_a_entregado, hpe] using nonobjCase (.arr xs) (by intro mm h; cases h)
    | obj m =>
      cases hv : validar_pedido_y_estado db (.obj m) (estado_esperado tr) with
      | error e =>
        left
        cases tr <;>
          simp only [estado_esperado] at hv <;>
          simp only [runTransition, pagado_a_cocina, cocina_a_empaquetamiento,
            empaquetamiento_a_delivery, delivery_a_entregado, hpe, hv]
      | ok s =>
        cases s with
        | inr r =>
          left
          rw [runTransition_guard_err tr clock event db (.obj m) r hpe hv]
        | inl pedido =>
          cases hkt : lookupKV pedido "tenant_id" with
          | none =>
            left
            rw [runTransition_guard_ok tr clock event db (.obj m) pedido hpe hv]
            cases tr <;>
              simp only [runTransitionCore, pagado_a_cocina_core,
                cocina_a_empaquetamiento_core, empaquetamiento_a_delivery_core,
                delivery_a_entregado_core, hkt]
          | some t =>
            cases hko : lookupKV pedido "id" with
            | none =>
              left
              rw [runTransition_guard_ok tr clock event db (.obj m) pedido hpe hv]
              cases tr <;>
                simp only [runTransitionCore, pagado_a_cocina_core,
                  cocina_a_empaquetamiento_core, empaquetamiento_a_delivery_core,
                  delivery_a_entregado_core, hkt, hko]
            | some o =>
              right
              rw [runTransition_guard_ok tr clock event db (.obj m) pedido hpe hv]
              cases tr with
              | toCocina =>
                refine ⟨m, pedido, t, o, getJ m "taskToken", rfl, hv, hkt, hko, ?_, ?_⟩
                · rw [show runTransitionCore .toCocina clock (.obj m) pedido db =
                      pagado_a_cocina_core clock (.obj m) pedido db from rfl,
                    pagado_a_cocina_core_eq clock m pedido db t o hkt hko]
                  rfl
                · exact Or.inl ⟨rfl, rfl⟩
              | toEmpaquetamiento =>
                refine ⟨m, pedido, t, o, getJ m "taskToken", rfl, hv, hkt, hko, ?_, ?_⟩
                · rw [show runTransitionCore .toEmpaquetamiento clock (.obj m) pedido db =
                      cocina_a_empaquetamiento_core clock (.obj m) pedido db from rfl,
                    cocina_a_empaquetamiento_core_eq clock m pedido db t o hkt hko]
                  rfl
                · exact Or.inr (Or.inl ⟨rfl, rfl⟩)
              | toDelivery =>
                refine ⟨m, pedido, t, o, getJ m "taskToken", rfl, hv, hkt, hko, ?_, ?_⟩
                · rw [show runTransitionCore .toDelivery clock (.obj m) pedido db =
                      empaquetamiento_a_delivery_core clock (.obj m) pedido db from rfl,
                    empaquetamiento_a_delivery_core_eq clock m pedido db t o hkt hko]
                  rfl
                · exact Or.inr (Or.inr (Or.inl ⟨rfl, rfl⟩))
              | toEntregado =>
                refine ⟨m, pedido, t, o, Json.null, rfl, hv, hkt, hko, ?_, ?_⟩
                · rw [show runTransitionCore .toEntregado clock (.obj m) pedido db =
                      delivery_a_entregado_core (.obj m) pedido db from rfl,
                    delivery_a_entregado_core_eq (.obj m) pedido db t o hkt hko]
                  rfl
                · exact Or.inr (Or.inr (Or.inr rfl))

/-- A confirmation run either leaves the world unchanged (besides the
signal log) or removes one token field from one existing order. -/
theorem confirmar_result (event : Dict) (db : Db) :
    (confirmar_paso event db).2 = db ∨
    ∃ t o : Json, ∃ pedido : Dict, ∃ campo : String,
      lookupTab db.pedidos (t, o) = some pedido ∧
      (campo = "task_token_cocina" ∨ campo = "task_token_empaquetamiento" ∨
        campo = "task_token_delivery") ∧
      (confirmar_paso event db).2.pedidos =
        updateTab db.pedidos (t, o) [("tenant_id", t), ("id", o)] [] [campo] := by
  cases hpe : parse_event event with
  | error e => left; simp only [confirmar_paso, hpe]
  | ok ev =>
    cases ev with
    | null => left; simp only [confirmar_paso, hpe, pyGet, pyGetIdPedido]
    | bool b => left; simp only [confirmar_paso, hpe, pyGet, pyGetIdPedido]
    | num n => left; simp only [confirmar_paso, hpe, pyGet, pyGetIdPedido]
    | fnum z l => left; simp only [confirmar_paso, hpe, pyGet, pyGetIdPedido]
    | str st => left; simp only [confirmar_paso, hpe, pyGet, pyGetIdPedido]
    | arr xs => left; simp only [confirmar_paso, hpe, pyGet, pyGetIdPedido]
    | obj m =>
      by_cases hmiss : (!(getJ m "tenant_id").truthy || !(resuelveId m).truthy ||
          !(getJ m "paso").truthy) = true
      · left
        simp only [confirmar_paso, hpe, pyGet_obj, pyGetIdPedido_obj, hmiss, if_true]
      · simp only [Bool.not_eq_true] at hmiss
        cases hl : obtener_pedido db (getJ m "tenant_id") (resuelveId m) with
        | none =>
          left
          simp only [confirmar_paso, hpe, pyGet_obj, pyGetIdPedido_obj, hmiss,
            Bool.false_eq_true, if_false, hl]
        | some p =>
          by_cases hemp : p.isEmpty = true
          · left
            simp only [confirmar_paso, hpe, pyGet_obj, pyGetIdPedido_obj, hmiss,
              Bool.false_eq_true, if_false, hl, hemp, if_true]
          · simp only [Bool.not_eq_true] at hemp
            cases hm : mapa_paso_get_py (getJ m "paso") with
            | error e =>
              left
              simp only [confirmar_paso, hpe, pyGet_obj, pyGetIdPedido_obj, hmiss,
                Bool.false_eq_true, if_false, hl, hemp, hm]
            | ok ocampo =>
              cases ocampo with
              | none =>
                left
                simp only [confirmar_paso, hpe, pyGet_obj, pyGetIdPedido_obj, hmiss,
                  Bool.false_eq_true, if_false, hl, hemp, hm]
              | some campo =>
                by_cases htok : (!(getJ p campo).truthy) = true
                · left
                  simp only [confirmar_paso, hpe, pyGet_obj, pyGetIdPedido_obj, hmiss,
                    Bool.false_eq_true, if_false, hl, hemp, hm, htok, if_true]
                · right
                  refine ⟨getJ m "tenant_id", resuelveId m, p, campo, hl,
                    mapa_paso_get_mem _ _ (mapa_paso_get_of_py _ _ hm), ?_⟩
                  simp only [Bool.not_eq_true] at htok
                  simp only [confirmar_paso, hpe, pyGet_obj, pyGetIdPedido_obj, hmiss,
                    Bool.false_eq_true, if_false, hl, hemp, hm, htok]

theorem campoToken_facts (tr : Transition) :
    campoToken tr ≠ "tenant_id" ∧ campoToken tr ≠ "id" ∧
      campoToken tr ≠ "estado_pedido" := by
  cases tr <;> exact ⟨by decide, by decide, by decide⟩

/-- Preservation of well-keyedness and of the token invariant along
disciplined runs. -/
theorem alcanzableD_wf_inv (db : Db) (h : AlcanzableD db) : WFdb db ∧ InvDb db := by
  induction h with
  | inicial db hwf htf =>
    exact ⟨hwf, fun e he => itemInv_of_sinTokens _ (htf e he)⟩
  | paso db op hdb hdisc ih =>
    obtain ⟨hwf, hinv⟩ := ih
    cases op with
    | avanzar tr clock event =>
      rcases runTransition_result tr clock event db with heq |
        ⟨m, pedido, t, o, tok, hpe, hv, hkt, hko, hped, hmatch⟩
      · rw [show runOp (Op.avanzar tr clock event) db = db from heq]
        exact ⟨hwf, hinv⟩
      · obtain ⟨hobt, _⟩ := validar_ok_inv db m (estado_esperado tr) pedido hv
        have hmem0 : ((getJ m "tenant_id", resuelveId m), pedido) ∈ db.pedidos :=
          lookupTab_mem _ _ _ hobt
        obtain ⟨hwt, hwo⟩ := hwf _ hmem0
        have ht0 : t = getJ m "tenant_id" := Option.some.inj (hkt.symm.trans hwt)
        have ho0 : o = resuelveId m := Option.some.inj (hko.symm.trans hwo)
        have hlto : lookupTab db.pedidos (t, o) = some pedido := by
          rw [ht0, ho0]; exact hobt
        have hsin : sinTokens pedido = true := hdisc pedido ⟨.obj m, hpe, hv⟩
        have hnew : applyRemoves (applySets
            ((lookupTab db.pedidos (t, o)).getD [("tenant_id", t), ("id", o)])
            (token_sets (estado_siguiente tr) (campoToken tr) tok)) [] =
            applySets pedido (token_sets (estado_siguiente tr) (campoToken tr) tok) := by
          rw [hlto]; rfl
        constructor
        · intro e he
          rw [show (runOp (Op.avanzar tr clock event) db).pedidos =
              updateTab db.pedidos (t, o) [("tenant_id", t), ("id", o)]
                (token_sets (estado_siguiente tr) (campoToken tr) tok) [] from hped] at he
          rcases mem_updateTab _ _ _ _ _ e he with he1 | he2
          · rw [he1, hnew]
            constructor
            · rw [lookupKV_applySets_token_sets pedido (estado_siguiente tr)
                (campoToken tr) tok "tenant_id" (by decide)
                (Ne.symm (campoToken_facts tr).1)]
              exact hkt
            · rw [lookupKV_applySets_token_sets pedido (estado_siguiente tr)
                (campoToken tr) tok "id" (by decide)
                (Ne.symm (campoToken_facts tr).2.1)]
              exact hko
          · exact hwf e he2
        · intro e he
          rw [show (runOp (Op.avanzar tr clock event) db).pedidos =
              updateTab db.pedidos (t, o) [("tenant_id", t), ("id", o)]
                (token_sets (estado_siguiente tr) (campoToken tr) tok) [] from hped] at he
          rcases mem_updateTab _ _ _ _ _ e he with he1 | he2
          · rw [he1]
            show itemInv (applyRemoves _ _) = true
            rw [hnew]
            rcases hmatch with hm | hm | hm | hm
            · rw [hm.1, hm.2]
              exact itemInv_token_sets pedido tok _ _ hsin (Or.inl ⟨rfl, rfl⟩)
            · rw [hm.1, hm.2]
              exact itemInv_token_sets pedido tok _ _ hsin (Or.inr (Or.inl ⟨rfl, rfl⟩))
            · rw [hm.1, hm.2]
              exact itemInv_token_sets pedido tok _ _ hsin
                (Or.inr (Or.inr ⟨rfl, rfl⟩))
            · rw [hm, show token_sets (estado_siguiente tr) (campoToken tr) Json.null =
                [("estado_pedido", Json.str (estado_siguiente tr))] from rfl]
              exact itemInv_solo_estado pedido _ hsin
          · exact hinv e he2
    | confirmar event =>
      rcases confirmar_result event db with heq | ⟨t, o, pedido, campo, hl, hcampo, hped⟩
      · rw [show runOp (Op.confirmar event) db = db from heq]
        exact ⟨hwf, hinv⟩
      · have hmem0 := lookupTab_mem _ _ _ hl
        obtain ⟨hwt, hwo⟩ := hwf _ hmem0
        have hnew : applyRemoves (applySets
            ((lookupTab db.pedidos (t, o)).getD [("tenant_id", t), ("id", o)]) [])
            [campo] = removeKV pedido campo := by
          rw [hl]; rfl
        constructor
        · intro e he
          rw [show (runOp (Op.confirmar event) db).pedidos =
              updateTab db.pedidos (t, o) [("tenant_id", t), ("id", o)] [] [campo]
              from hped] at he
          rcases mem_updateTab _ _ _ _ _ e he with he1 | he2
          · rw [he1]
            show lookupKV (applyRemoves _ _) "tenant_id" = some t ∧
              lookupKV (applyRemoves _ _) "id" = some o
            rw [hnew]
            have hct : campo ≠ "tenant_id" := by
              rcases hcampo with hc | hc | hc <;> subst hc <;> decide
            have hci : campo ≠ "id" := by
              rcases hcampo with hc | hc | hc <;> subst hc <;> decide
            rw [lookupKV_removeKV, if_neg hct, lookupKV_removeKV, if_neg hci]
            exact ⟨hwt, hwo⟩
          · exact hwf e he2
        · intro e he
          rw [show (runOp (Op.confirmar event) db).pedidos =
              updateTab db.pedidos (t, o) [("tenant_id", t), ("id", o)] [] [campo]
              from hped] at he
          rcases mem_updateTab _ _ _ _ _ e he with he1 | he2
          · rw [he1]
            show itemInv (applyRemoves _ _) = true
            rw [hnew]
            exact itemInv_removeKV_token pedido campo hcampo (hinv _ hmem0)
          · exact hinv e he2

/-- Counterexample to C5: the token-exclusivity invariant does not hold
for arbitrary operation sequences.  Starting from a token-free world
with one paid order, calling `pagado_a_cocina` with task token "T1" and
then `cocina_a_empaquetamiento` with task token "T2" — both calls
answer 200 — leaves the order carrying `task_token_cocina` and
`task_token_empaquetamiento` at once: nothing removes the previous
token when the next handler stores its own. -/
theorem c5_contraejemplo :
    Alcanzable (runOp (Op.avanzar .toEmpaquetamiento (fun _ => "ts2")
        [("tenant_id", .str "t1"), ("id_pedido", .str "o1"), ("taskToken", .str "T2")])
      (runOp (Op.avanzar .toCocina (fun _ => "ts1")
        [("tenant_id", .str "t1"), ("id_pedido", .str "o1"), ("taskToken", .str "T1")])
        dbEjemplo))
    ∧ ¬ InvDb (runOp (Op.avanzar .toEmpaquetamiento (fun _ => "ts2")
        [("tenant_id", .str "t1"), ("id_pedido", .str "o1"), ("taskToken", .str "T2")])
      (runOp (Op.avanzar .toCocina (fun _ => "ts1")
        [("tenant_id", .str "t1"), ("id_pedido", .str "o1"), ("taskToken", .str "T1")])
        dbEjemplo)) := by
  constructor
  · exact Alcanzable.paso _ _ (Alcanzable.paso _ _
      (Alcanzable.inicial dbEjemplo (by unfold WFdb; decide) (by decide)))
  · unfold InvDb
    decide

/-- Claim C5 (amended): in every world reachable under the
orchestrator's confirm-before-advance discipline — transition handlers
run only on orders currently holding no token field; `confirmar_paso`
runs freely — every order record holds at most one of the three token
fields, and the one present matches the stage awaiting confirmation
(`task_token_cocina` with state "cocina", `task_token_empaquetamiento`
with "empaquetamiento", `task_token_delivery` with "delivery"). -/
theorem c5_invariante_tokens (db : Db) (h : AlcanzableD db) :
    ∀ e ∈ db.pedidos, itemInv e.2 = true :=
  (alcanzableD_wf_inv db h).2

/-- Witness for C5 (amended): after one disciplined token-storing
transition the stored order holds exactly the matching token. -/
theorem c5_invariante_tokens_witness :
    itemInv [("tenant_id", .str "t1"), ("id", .str "o1"),
      ("estado_pedido", .str "cocina"), ("task_token_cocina", .str "T1")] = true :=
  c5_invariante_tokens
    (runOp (Op.avanzar .toCocina (fun _ => "ts1")
      [("tenant_id", .str "t1"), ("id_pedido", .str "o1"), ("taskToken", .str "T1")])
      dbEjemplo)
    (AlcanzableD.paso dbEjemplo _
      (AlcanzableD.inicial dbEjemplo (by unfold WFdb; decide) (by decide))
      (by
        intro pedido hgp
        obtain ⟨ev, hpe, hv⟩ := hgp
        have hev : Json.obj [("tenant_id", .str "t1"), ("id_pedido", .str "o1"),
            ("taskToken", .str "T1")] = ev :=
          Except.ok.inj ((show parse_event
            [("tenant_id", .str "t1"), ("id_pedido", .str "o1"),
             ("taskToken", .str "T1")] =
            .ok (.obj [("tenant_id", .str "t1"), ("id_pedido", .str "o1"),
             ("taskToken", .str "T1")]) from rfl).symm.trans hpe)
        rw [← hev] at hv
        have hped : Sum.inl ([("tenant_id", Json.str "t1"), ("id", Json.str "o1"),
            ("estado_pedido", Json.str "pagado")] : Dict) =
            (Sum.inl pedido : Dict ⊕ Resp) :=
          Except.ok.inj ((show validar_pedido_y_estado dbEjemplo
            (.obj [("tenant_id", .str "t1"), ("id_pedido", .str "o1"),
             ("taskToken", .str "T1")]) "pagado" =
            .ok (.inl [("tenant_id", .str "t1"), ("id", .str "o1"),
             ("estado_pedido", .str "pagado")]) from rfl).symm.trans hv)
        rw [← Sum.inl.inj hped]
        decide))
    ((Json.str "t1", Json.str "o1"),
     [("tenant_id", .str "t1"), ("id", .str "o1"),
      ("estado_pedido", .str "cocina"), ("task_token_cocina", .str "T1")])
    (by decide)

/-- Witness for C4 (amended): confirming the kitchen step on an order
holding `task_token_cocina` signals once with that token and removes
the field; an unsupported string step name draws the listing 400; an
array step name raises `TypeError`. -/
theorem c4_confirmar_witness :
    (statusOf (confirmar_paso
        [("tenant_id", .str "t1"), ("id_pedido", .str "o1"),
         ("paso", .str "cocina-lista")]
        ⟨[((.str "t1", .str "o1"),
           [("tenant_id", .str "t1"), ("id", .str "o1"),
            ("estado_pedido", .str "cocina"),
            ("task_token_cocina", .str "TOK1")])], [], [], [], []⟩) = some 200
    ∧ (confirmar_paso
        [("tenant_id", .str "t1"), ("id_pedido", .str "o1"),
         ("paso", .str "cocina-lista")]
        ⟨[((.str "t1", .str "o1"),
           [("tenant_id", .str "t1"), ("id", .str "o1"),
            ("estado_pedido", .str "cocina"),
            ("task_token_cocina", .str "TOK1")])], [], [], [], []⟩).2.enviados =
      [(.str "TOK1",
        [("mensaje", .str ("Confirmación de paso " ++ sq ++ "cocina-lista" ++ sq)),
         ("tenant_id", .str "t1"), ("id_pedido", .str "o1")])])
    ∧ (confirmar_paso
        [("tenant_id", .str "t1"), ("id_pedido", .str "o1"), ("paso", .str "foo")]
        dbEjemplo).1 =
      .ok ⟨400, [("mensaje", .str (msg_paso_no_soportado (.str "foo")))]⟩
    ∧ (confirmar_paso
        [("tenant_id", .str "t1"), ("id_pedido", .str "o1"),
         ("paso", .arr [.str "x"])]
        dbEjemplo).1 = .error .typeError :=
  ⟨((c4_confirmar
      [("tenant_id", .str "t1"), ("id_pedido", .str "o1"), ("paso", .str "cocina-lista")]
      ⟨[((.str "t1", .str "o1"),
         [("tenant_id", .str "t1"), ("id", .str "o1"),
          ("estado_pedido", .str "cocina"),
          ("task_token_cocina", .str "TOK1")])], [], [], [], []⟩
      [("tenant_id", .str "t1"), ("id_pedido", .str "o1"), ("paso", .str "cocina-lista")]
      [("tenant_id", .str "t1"), ("id", .str "o1"),
       ("estado_pedido", .str "cocina"), ("task_token_cocina", .str "TOK1")]
      (.str "t1") (.str "o1") rfl (by decide) (by decide) (by decide) (by decide)
      (by decide) (by decide)).2.2.2.2.1 (.str "cocina-lista") "task_token_cocina"
      (by decide) (by decide) (by decide)).imp_right (fun h => h.1),
   ((c4_confirmar
      [("tenant_id", .str "t1"), ("id_pedido", .str "o1"), ("paso", .str "foo")]
      dbEjemplo
      [("tenant_id", .str "t1"), ("id_pedido", .str "o1"), ("paso", .str "foo")]
      [("tenant_id", .str "t1"), ("id", .str "o1"), ("estado_pedido", .str "pagado")]
      (.str "t1") (.str "o1") rfl (by decide) (by decide) (by decide) (by decide)
      (by decide) (by decide)).2.1 (.str "foo") (by decide) (by decide)
      rfl).1,
   ((c4_confirmar
      [("tenant_id", .str "t1"), ("id_pedido", .str "o1"),
       ("paso", .arr [.str "x"])]
      dbEjemplo
      [("tenant_id", .str "t1"), ("id_pedido", .str "o1"), ("paso", .arr [.str "x"])]
      [("tenant_id", .str "t1"), ("id", .str "o1"), ("estado_pedido", .str "pagado")]
      (.str "t1") (.str "o1") rfl (by decide) (by decide) (by decide) (by decide)
      (by decide) (by decide)).2.2.2.2.2 (.arr [.str "x"]) (by decide) (by decide)
      rfl).1⟩

end EstadoPedidos
